import Mathlib

/-!
# Verification of the policy-compliance backend's streaming core

This file gives a shallow embedding, in Lean 4, of the streaming/orchestration
core of the `policy_compliance_multi_Ai_backend` repository:

* `backend/orchestrator/event_formatter.py` (text truncation, event → UI-payload
  formatting, SSE serialization),
* `backend/orchestrator/executor.py` (the async producer that drives the graph
  event stream and pushes serialized frames onto a queue),
* `backend/orchestrator/orchestrator.py` (rule-based and LLM-fallback intent
  classification),
* `backend/orchestrator/graph.py` (the company-policy graph nodes and the two
  conditional routers).

Python values are modelled by the inductive type `PyVal` (`None`, bools, ints,
strings, lists, dicts with string keys, and opaque non-JSON-serializable
objects).  Python code that can raise is modelled in `Except String`; the
`String` carries the (model-level) exception message.  External collaborators
(the database, the filesystem, the LLM, retrievers) are modelled as explicit
oracle parameters (`Db`, `Fs`, `NodeEnv`), so every definition stays executable.

The LangGraph execution semantics themselves are third-party code that is not
part of the repository; where a claim depends on them they are modelled from
the specification (sequential single-path execution, per-node start/end events,
dict-merge of node results) — such definitions say so in their doc comment.
-/

set_option maxRecDepth 10000

/-! ## Python value model -/

/-- A Python runtime value, as far as the embedded code needs it.
`obj` models an opaque Python object that is not JSON serializable and has no
`content`/`text` attributes; its field is the result of `str()` on it. -/
inductive PyVal where
  | none
  | bool (b : Bool)
  | int (n : Int)
  | str (s : String)
  | list (xs : List PyVal)
  | dict (kvs : List (String × PyVal))
  | obj (r : String)

/-- A Python dict with string keys, as an association list (first match wins,
mirroring unique-key dicts). -/
abbrev PyDictL := List (String × PyVal)

/-- Python truthiness (`bool(v)`). -/
def PyVal.truthy : PyVal → Bool
  | .none => false
  | .bool b => b
  | .int n => n != 0
  | .str s => !s.isEmpty
  | .list xs => !xs.isEmpty
  | .dict kvs => !kvs.isEmpty
  | .obj _ => true

/-- Key lookup in a dict, distinguishing an absent key from a `None` value. -/
def lookupOpt : PyDictL → String → Option PyVal
  | [], _ => Option.none
  | (k', v) :: r, k => if k' = k then some v else lookupOpt r k

/-- Models `d.get(k, dflt)`. -/
def lookupD (kvs : PyDictL) (k : String) (dflt : PyVal) : PyVal :=
  (lookupOpt kvs k).getD dflt

/-- Models `d.get(k)` (default `None`). -/
def pyGet (st : PyDictL) (k : String) : PyVal := lookupD st k .none

/-- Python `a or b`. -/
def pyOr (a b : PyVal) : PyVal := if a.truthy then a else b

/-- Python `d[k]`: raises `KeyError` when the key is absent. -/
def pyIndex (st : PyDictL) (k : String) : Except String PyVal :=
  match lookupOpt st k with
  | some v => .ok v
  | Option.none => .error ("KeyError: \x27" ++ k ++ "\x27")

/-- Models `v == "s"` for a Python value against a string literal (false for
non-strings, as in Python). -/
def evEqStr (v : PyVal) (s : String) : Bool :=
  match v with
  | .str t => t == s
  | _ => false

/-! ## Python string helpers (modelled on char lists so they compute) -/

/-- The whitespace set of `str.strip`/`str.rstrip`/`str.isspace`
(ASCII subset; the embedded code only meets ASCII whitespace). -/
def isSpaceChar (c : Char) : Bool :=
  c = ' ' || c = '\t' || c = '\n' || c = '\r' || c = '\x0b' || c = '\x0c'

/-- Models `s.lower()` (ASCII case mapping, enough for the embedded keyword sets). -/
def lowerStr (s : String) : String := ⟨s.data.map Char.toLower⟩

/-- Models `s.strip()`. -/
def stripStr (s : String) : String :=
  ⟨((s.data.dropWhile isSpaceChar).reverse.dropWhile isSpaceChar).reverse⟩

/-- Models `rstrip` on a char list. -/
def rstripChars (l : List Char) : List Char :=
  (l.reverse.dropWhile isSpaceChar).reverse

/-- Models `s.rstrip()`. -/
def rstripStr (s : String) : String := ⟨rstripChars s.data⟩

/-- Models `s.replace(c, rep)` for a single-character pattern (the only patterns the
source uses: `"-"` and `"\n"`). -/
def replaceCharStr (c : Char) (rep : String) (s : String) : String :=
  ⟨(s.data.map (fun ch => if ch = c then rep.data else [ch])).flatten⟩

/-- Python slice `s[:k]` (negative `k` counts from the end, clamped at 0). -/
def sliceTo (s : String) (k : Int) : String :=
  if k < 0 then ⟨s.data.take (s.length - k.natAbs)⟩ else ⟨s.data.take k.toNat⟩

/-- Models `s[:n]` for a nonnegative bound. -/
def takeStr (s : String) (n : Nat) : String := ⟨s.data.take n⟩

/-- Substring containment on char lists (Python `needle in hay`). -/
def containsSub (n : List Char) : List Char → Bool
  | [] => n.isEmpty
  | c :: rest => n.isPrefixOf (c :: rest) || containsSub n rest

/-- Python `needle in hay` for strings. -/
def strIn (needle hay : String) : Bool := containsSub needle.data hay.data

/-- Models `sep.join(parts)`. -/
def joinSep (sep : String) : List String → String
  | [] => ""
  | [x] => x
  | x :: xs => x ++ sep ++ joinSep sep xs

/-! ## `str()` / `repr()` -/

mutual

/-- Python `repr(v)` (string contents are not re-escaped; the embedded claims
never depend on `repr` escaping). -/
def pyRepr : PyVal → String
  | .none => "None"
  | .bool b => if b then "True" else "False"
  | .int n => toString n
  | .str s => "\x27" ++ s ++ "\x27"
  | .obj r => r
  | .list xs => "[" ++ joinSep ", " (pyReprList xs) ++ "]"
  | .dict kvs => "\x7b" ++ joinSep ", " (pyReprKVs kvs) ++ "\x7d"

def pyReprList : List PyVal → List String
  | [] => []
  | v :: r => pyRepr v :: pyReprList r

def pyReprKVs : PyDictL → List String
  | [] => []
  | (k, v) :: r => ("\x27" ++ k ++ "\x27: " ++ pyRepr v) :: pyReprKVs r

end

/-- Python `str(v)`. -/
def pyStr : PyVal → String
  | .str s => s
  | v => pyRepr v

/-! ## `json.dumps` (default separators, `ensure_ascii=True`) -/

/-- Lowercase hex digit. -/
def hexDigitChar (n : Nat) : Char :=
  if n < 10 then Char.ofNat (48 + n) else Char.ofNat (87 + n)

/-- Four-digit lowercase hex. -/
def hex4 (n : Nat) : String :=
  ⟨[hexDigitChar (n / 4096 % 16), hexDigitChar (n / 256 % 16),
    hexDigitChar (n / 16 % 16), hexDigitChar (n % 16)]⟩

/-- JSON escaping of one character, as `json.dumps` does with
`ensure_ascii=True` (non-ASCII goes to `\uXXXX`, astral codepoints to a
surrogate pair). -/
def escapeChar (c : Char) : String :=
  if c = '"' then "\\\""
  else if c = '\\' then "\\\\"
  else if c = '\n' then "\\n"
  else if c = '\t' then "\\t"
  else if c = '\r' then "\\r"
  else if c = '\x08' then "\\b"
  else if c = '\x0c' then "\\f"
  else if c.toNat < 32 then "\\u" ++ hex4 c.toNat
  else if c.toNat ≥ 127 then
    if c.toNat < 65536 then "\\u" ++ hex4 c.toNat
    else "\\u" ++ hex4 (55296 + (c.toNat - 65536) / 1024)
         ++ "\\u" ++ hex4 (56320 + (c.toNat - 65536) % 1024)
  else String.singleton c

/-- JSON escaping of a string body. -/
def jsonEscape (s : String) : String := ⟨(s.data.map (fun c => (escapeChar c).data)).flatten⟩

/-- A JSON string literal. -/
def jsonQuote (s : String) : String := "\"" ++ jsonEscape s ++ "\""

mutual

/-- Models `json.dumps(v)`: errors (raises `TypeError`) exactly on values containing
an opaque object. -/
def jsonDumps : PyVal → Except String String
  | .none => .ok "null"
  | .bool b => .ok (if b then "true" else "false")
  | .int n => .ok (toString n)
  | .str s => .ok (jsonQuote s)
  | .obj r => .error ("Object " ++ r ++ " is not JSON serializable")
  | .list xs => do
    let parts ← jsonDumpsList xs
    pure ("[" ++ joinSep ", " parts ++ "]")
  | .dict kvs => do
    let parts ← jsonDumpsKVs kvs
    pure ("\x7b" ++ joinSep ", " parts ++ "\x7d")

def jsonDumpsList : List PyVal → Except String (List String)
  | [] => .ok []
  | v :: r => do
    let s ← jsonDumps v
    let rest ← jsonDumpsList r
    pure (s :: rest)

def jsonDumpsKVs : PyDictL → Except String (List String)
  | [] => .ok []
  | (k, v) :: r => do
    let s ← jsonDumps v
    let rest ← jsonDumpsKVs r
    pure ((jsonQuote k ++ ": " ++ s) :: rest)

end

/-! ## `event_formatter.py` -/

/-- The filesystem oracle used by the doc-download formatter branch:
`none` = path does not exist; `some none` = exists but `os.path.getsize`
raises `OSError`; `some (some n)` = exists with size `n`. -/
abbrev Fs := String → Option (Option Int)

/-- Models `_truncate` (event_formatter.py:6-11). -/
def _truncate (text : PyVal) (limit : Int) : String :=
  match text with
  | .none => ""
  | t =>
    let s := pyStr t
    if (s.length : Int) ≤ limit then s
    else rstripStr (sliceTo s (limit - 1)) ++ "…"

/-- Models `_safe_session` (event_formatter.py:14-16): `(value or "").replace("-","_")`;
raises `AttributeError` on a truthy non-string. -/
def _safe_session (value : PyVal) : Except String String :=
  match pyOr value (.str "") with
  | .str s => .ok (replaceCharStr '-' "_" s)
  | _ => .error "AttributeError: \x27replace\x27"

/-- Models `.lower()` on a Python value: only defined for strings. -/
def pyLower : PyVal → Except String String
  | .str s => .ok (lowerStr s)
  | _ => .error "AttributeError: \x27lower\x27"

mutual

/-- Models `_extract_text` (event_formatter.py:19-39).  `obj` values have no
`content` attribute in the model, so they fall through to `str(blob)`. -/
def _extract_text : PyVal → String
  | .none => ""
  | .str s => s
  | .bool b => pyRepr (.bool b)
  | .int n => pyRepr (.int n)
  | .obj r => r
  | .list xs => extractTextList xs
  | .dict kvs =>
    match extractTextKey "content" kvs with
    | some s => s
    | Option.none =>
      match extractTextKey "text" kvs with
      | some s => s
      | Option.none =>
        match extractTextKey "response" kvs with
        | some s => s
        | Option.none => extractTextVals kvs

/-- Concatenation over list elements ( `"".join(_extract_text(part) ...)` ). -/
def extractTextList : List PyVal → String
  | [] => ""
  | v :: r => _extract_text v ++ extractTextList r

/-- Models `if key in blob: return _extract_text(blob[key])`, walking the dict. -/
def extractTextKey (k : String) : PyDictL → Option String
  | [] => Option.none
  | (k', v) :: r => if k' = k then some (_extract_text v) else extractTextKey k r

/-- The fallthrough: concatenate the extracts of all values (empty chunks
contribute nothing either way). -/
def extractTextVals : PyDictL → String
  | [] => ""
  | (_, v) :: r => _extract_text v ++ extractTextVals r

end

/-- Models `_extract_count` (event_formatter.py:42-46); `list` also models Python
tuples/sets here. -/
def _extract_count : PyVal → Option Int
  | .list xs => some xs.length
  | .dict kvs => some kvs.length
  | _ => Option.none

/-- Models `v is not None`. -/
def notNoneKV : (String × PyVal) → Bool
  | (_, .none) => false
  | _ => true

/-- Models `_build_stage_payload` (event_formatter.py:49-54): base fields plus the
extras whose value is not `None`. -/
def _build_stage_payload (node message : String) (extra : PyDictL) : PyVal :=
  .dict ([("type", .str "stage"), ("node", .str node), ("message", .str message)]
         ++ extra.filter notNoneKV)

/-- The parts of `"".join(...)` inside `_extract_token`: `part.get("text","")`
must be a string or `join` raises `TypeError`. -/
def tokenParts : List PyVal → Except String (List String)
  | [] => .ok []
  | p :: r => do
    let s ← (match p with
      | .dict kvs =>
        (match lookupD kvs "text" (.str "") with
         | .str s => Except.ok s
         | _ => Except.error "TypeError: sequence item: expected str instance")
      | other => Except.ok (pyStr other))
    let rest ← tokenParts r
    pure (s :: rest)

/-- Models `_extract_token` (event_formatter.py:57-81).  `obj` chunks have no
`content`/`text` attributes in the model, so they fall to `_extract_text`. -/
def _extract_token (data_section : PyVal) : Except String String :=
  match data_section with
  | .dict kvs =>
    let chunk := pyOr (lookupD kvs "chunk" .none) (lookupD kvs "delta" .none)
    match chunk with
    | .none => .ok ""
    | .str s => .ok s
    | .dict ckvs =>
      (match lookupD ckvs "content" .none with
       | .list parts => do
         let ps ← tokenParts parts
         pure (joinSep "" ps)
       | .str c => .ok c
       | _ =>
         match lookupOpt ckvs "text" with
         | some t => .ok (pyStr t)
         | Option.none => .ok (_extract_text (.dict ckvs)))
    | other => .ok (_extract_text other)
  | _ => .ok ""

/-- Models `_maybe_get_state` (event_formatter.py:84-92). -/
def _maybe_get_state (data_section : PyVal) : PyDictL :=
  match data_section with
  | .dict kvs =>
    (match lookupD kvs "state" .none with
     | .dict s => s
     | _ =>
       match lookupD kvs "new_state" .none with
       | .dict s => s
       | _ =>
         match lookupD kvs "updated_state" .none with
         | .dict s => s
         | _ => [])
  | _ => []

/-! ### The branch handlers of `format_event_for_ui` (event_formatter.py:95-326) -/

/-- Models `on_chat_model_stream` branch (lines 122-127). -/
def fmt_stream (node_name : String) (data_section : PyVal) : Except String (List PyVal) := do
  let token ← _extract_token data_section
  if token ≠ "" then
    pure [PyVal.dict [("type", .str "llm_stream"), ("node", .str node_name),
                      ("content", .str token)]]
  else
    pure []

/-- Models `on_chat_model_end` branch (lines 129-134). -/
def fmt_model_end (node_name : String) (output_section data_section : PyVal) : List PyVal :=
  let final_text := _extract_text (pyOr output_section data_section)
  if final_text ≠ "" then
    [PyVal.dict [("type", .str "llm_final"), ("node", .str node_name),
                 ("content", .str final_text)]]
  else []

/-- Models `input` node branch (lines 136-161). -/
def fmt_input (ev_type output_section : PyVal) (initial_state : PyDictL) :
    Except String (List PyVal) :=
  if evEqStr ev_type "on_chain_start" then do
    let sess ← _safe_session (pyGet initial_state "session_id")
    pure [_build_stage_payload "input" "Validating session & user input…"
      [("session", .str sess),
       ("user_message", .str (_truncate (pyGet initial_state "message") 120))]]
  else if evEqStr ev_type "on_chain_end" then
    let safe_id := match output_section with
      | .dict kvs => lookupD kvs "safe_session_id" .none
      | _ => .none
    if safe_id.truthy then
      pure [_build_stage_payload "input" "Session validated" [("session", safe_id)]]
    else do
      let s ← _safe_session (pyGet initial_state "session_id")
      pure [_build_stage_payload "input" "Session validated" [("session", .str s)]]
  else pure []

/-- Models `history` node end branch (lines 163-178). -/
def fmt_history (output_section : PyVal) (state_snapshot : PyDictL) : List PyVal :=
  let history0 : PyVal := match output_section with
    | .dict kvs => lookupD kvs "history" .none
    | _ => .none
  let history := match history0 with
    | .none => if !state_snapshot.isEmpty then pyGet state_snapshot "history" else .none
    | h => h
  let count := (_extract_count history).getD 0
  [_build_stage_payload "history"
    ("Fetched " ++ toString count ++ " messages from history")
    [("count", .int count)]]

/-- Models `doc_download` node branch (lines 180-209). -/
def fmt_doc_download (fs : Fs) (ev_type output_section : PyVal)
    (state_snapshot : PyDictL) (initial_state : PyDictL) : Except String (List PyVal) :=
  if evEqStr ev_type "on_chain_start" then
    let url := pyOr (pyGet initial_state "document_url") (pyGet state_snapshot "document_url")
    if url.truthy then
      pure [_build_stage_payload "doc_download"
        ("Downloading document from URL " ++ _truncate url 100) []]
    else pure []
  else if evEqStr ev_type "on_chain_end" then do
    let tmp0 : PyVal := match output_section with
      | .dict kvs => lookupD kvs "tmp_file_path" .none
      | _ => .none
    let tmp := if !tmp0.truthy && !state_snapshot.isEmpty
               then pyGet state_snapshot "tmp_file_path" else tmp0
    let size : Option Int ←
      if ¬ tmp.truthy then pure Option.none
      else match tmp with
        | .str p => pure (match fs p with
            | some (some n) => some n
            | some Option.none => Option.none
            | Option.none => Option.none)
        | _ => Except.error "TypeError: path should be string, bytes, os.PathLike or integer"
    pure [_build_stage_payload "doc_download" "Document downloaded"
      [("bytes", match size with | some n => .int n | Option.none => .none),
       ("temp_path", if tmp.truthy then .str (_truncate tmp 80) else .none)]]
  else pure []

/-- Models `doc_process` node branch (lines 211-225). -/
def fmt_doc_process (ev_type : PyVal) : List PyVal :=
  if evEqStr ev_type "on_chain_start" then
    [_build_stage_payload "doc_process" "Processing downloaded document…" []]
  else if evEqStr ev_type "on_chain_end" then
    [_build_stage_payload "doc_process" "Document chunks prepared for retrieval" []]
  else []

/-- Models `policy_retriever` node end branch (lines 227-245). -/
def fmt_policy_retriever (output_section : PyVal) (state_snapshot : PyDictL) : List PyVal :=
  let chunks0 : PyVal := match output_section with
    | .dict kvs => lookupD kvs "policy_context" .none
    | _ => .none
  let chunks := match chunks0 with
    | .none => if !state_snapshot.isEmpty then pyGet state_snapshot "policy_context" else .none
    | c => c
  let count := (_extract_count chunks).getD 0
  let sample : PyVal := match chunks with
    | .list xs => .str (_truncate (if count ≠ 0 then xs.headD .none else .str "") 160)
    | _ => .none
  [_build_stage_payload "policy_retriever"
    ("Retrieved " ++ toString count ++ " policy chunks")
    [("count", .int count), ("sample", sample)]]

/-- Models `doc_retriever` node end branch (lines 247-263). -/
def fmt_doc_retriever (output_section : PyVal) (state_snapshot : PyDictL) : List PyVal :=
  let chunks0 : PyVal := match output_section with
    | .dict kvs => lookupD kvs "doc_context" .none
    | _ => .none
  let chunks := match chunks0 with
    | .none => if !state_snapshot.isEmpty then pyGet state_snapshot "doc_context" else .none
    | c => c
  let count := (_extract_count chunks).getD 0
  let sample : PyVal := match chunks with
    | .list xs => .str (_truncate (if count ≠ 0 then xs.headD .none else .str "") 160)
    | _ => .none
  [_build_stage_payload "doc_retriever"
    ("Retrieved " ++ toString count ++ " document chunks")
    [("count", .int count), ("sample", sample)]]

/-- Models `context_combine` node end branch (lines 265-277). -/
def fmt_context_combine (output_section : PyVal) (state_snapshot : PyDictL) : List PyVal :=
  let fm0 : PyVal := match output_section with
    | .dict kvs => lookupD kvs "full_user_message" .none
    | _ => .none
  let fm := if !fm0.truthy && !state_snapshot.isEmpty
            then pyGet state_snapshot "full_user_message" else fm0
  [_build_stage_payload "context_combine" "Combining policy and document context"
    [("preview", if fm.truthy then .str (_truncate fm 200) else .none)]]

/-- Models `llm` node start branch (lines 279-285). -/
def fmt_llm_start : List PyVal :=
  [_build_stage_payload "llm" "Generating response with LLM…" []]

/-- Models `session_update` node end branch (lines 287-293). -/
def fmt_session_update : List PyVal :=
  [_build_stage_payload "session_update" "Appending messages to session history" []]

/-- Models `output` node end branch (lines 295-305). -/
def fmt_output (node_name : String) (output_section data_section : PyVal) : List PyVal :=
  let ft1 : PyVal := match output_section with
    | .dict kvs =>
      let a := _extract_text (pyOr (lookupD kvs "content" .none) (.dict kvs))
      if a ≠ "" then .str a
      else lookupD kvs "response" (.str "")
    | _ => .str ""
  let ft2 : PyVal := if ft1.truthy then ft1 else .str (_extract_text data_section)
  [PyVal.dict [("type", .str "final"), ("node", .str node_name), ("content", ft2)]]

/-- Generic fallback branch (lines 307-317). -/
def fmt_generic (ev_type : PyVal) (node_name : String) : List PyVal :=
  let verb := if evEqStr ev_type "on_chain_start" then "Starting" else "Finished"
  [_build_stage_payload node_name (verb ++ " node \x27" ++ node_name ++ "\x27") []]

/-- The `elif` dispatch of `format_event_for_ui` (event_formatter.py:119-317),
keyed on event kind then node name, over the locals computed on lines 109-113
(`node_name`, `ev_type`, `data_section`, `state_snapshot`, `output_section`). -/
def format_dispatch (fs : Fs) (initial_state : PyDictL) (node_name : String)
    (ev_type data_section : PyVal) (state_snapshot : PyDictL) (output_section : PyVal) :
    Except String (List PyVal) :=
  if evEqStr ev_type "on_chat_model_stream" then
    fmt_stream node_name data_section
  else if evEqStr ev_type "on_chat_model_end" then
    pure (fmt_model_end node_name output_section data_section)
  else if node_name == "input" || node_name == "input_node" then
    fmt_input ev_type output_section initial_state
  else if (node_name == "history" || node_name == "session_history_node")
          && evEqStr ev_type "on_chain_end" then
    pure (fmt_history output_section state_snapshot)
  else if node_name == "doc_download" || node_name == "document_download_node" then
    fmt_doc_download fs ev_type output_section state_snapshot initial_state
  else if node_name == "doc_process" || node_name == "document_processing_node" then
    pure (fmt_doc_process ev_type)
  else if (node_name == "policy_retriever" || node_name == "policy_retriever_node")
          && evEqStr ev_type "on_chain_end" then
    pure (fmt_policy_retriever output_section state_snapshot)
  else if (node_name == "doc_retriever" || node_name == "document_retriever_node")
          && evEqStr ev_type "on_chain_end" then
    pure (fmt_doc_retriever output_section state_snapshot)
  else if (node_name == "context_combine" || node_name == "context_combination_node")
          && evEqStr ev_type "on_chain_end" then
    pure (fmt_context_combine output_section state_snapshot)
  else if (node_name == "llm" || node_name == "llm_node")
          && evEqStr ev_type "on_chain_start" then
    pure fmt_llm_start
  else if (node_name == "session_update" || node_name == "session_update_node")
          && evEqStr ev_type "on_chain_end" then
    pure fmt_session_update
  else if (node_name == "output" || node_name == "output_node")
          && evEqStr ev_type "on_chain_end" then
    pure (fmt_output node_name output_section data_section)
  else if (evEqStr ev_type "on_chain_start" || evEqStr ev_type "on_chain_end")
          && node_name != "" then
    pure (fmt_generic ev_type node_name)
  else
    pure []

/-- The body of the `try:` block of `format_event_for_ui`
(event_formatter.py:108-317): compute `node_name` (line 109, which raises on a
truthy non-string name) and the other locals of lines 110-113, then dispatch. -/
def format_body (fs : Fs) (event initial_state : PyDictL) : Except String (List PyVal) :=
  match pyLower (pyOr (pyGet event "name") (.str "")) with
  | .error e => .error e
  | .ok node_name =>
    let ev_type := pyGet event "event"
    let data_section := pyOr (pyGet event "data") (.dict [])
    let state_snapshot := _maybe_get_state data_section
    let output_section : PyVal := match data_section with
      | .dict kvs => lookupD kvs "output" .none
      | _ => .none
    format_dispatch fs initial_state node_name ev_type data_section state_snapshot output_section

/-- The single error payload the `except` handler builds (line 323). -/
def errorPayload (m : String) : PyVal :=
  .dict [("type", .str "error"), ("error", .str m)]

/-- Models `format_event_for_ui` (event_formatter.py:95-326).  The `try` body is
`format_body`; exceptions are converted to a single error payload — except
that when the exception happened while computing `node_name` (line 109), the
final logging statement (line 325) references the still-unbound `ev_type`
and itself raises `NameError`, which propagates to the caller. -/
def format_event_for_ui (fs : Fs) (event initial_state : PyDictL) :
    Except String (List PyVal) :=
  match pyLower (pyOr (pyGet event "name") (.str "")) with
  | .error _ => .error "NameError: name \x27ev_type\x27 is not defined"
  | .ok _ =>
    match format_body fs event initial_state with
    | .ok payloads => .ok payloads
    | .error e => .ok [errorPayload e]

/-- Models `serialize_payload_for_sse` (event_formatter.py:329-339).  The inner
fallback dict contains only strings, so its serialization always succeeds; the
final `.error` arm is unreachable (kept to mirror control flow). -/
def serialize_payload_for_sse (payload : PyVal) : String :=
  match jsonDumps payload with
  | .ok j => "data: " ++ j ++ "\n\n"
  | .error _ =>
    let raw := replaceCharStr '\n' "\\n" (takeStr (pyStr payload) 200)
    match jsonDumps (.dict [("type", .str "event"), ("raw", .str raw)]) with
    | .ok j => "data: " ++ j ++ "\n\n"
    | .error _ => ""

/-! ## `executor.py` — the producer side of the bridge -/

/-- The terminal `end` frame (executor.py:86): the dump of the one-key dict
mapping `type` to `end`, interpolated into the SSE frame.  The `except` fallback on line 88 pushes the
byte-identical string, so the two arms collapse. -/
def endLine : String := "data: \x7b\"type\": \"end\"\x7d\n\n"

/-- The frame pushed by the producer's `except` handler (executor.py:82).
If `json.dumps` could fail here nothing would be pushed (the exception would
skip to `finally`); for string messages it always succeeds. -/
def errorFrames (m : String) : List String :=
  match jsonDumps (.dict [("type", .str "error"), ("error", .str m)]) with
  | .ok j => ["data: " ++ j ++ "\n\n"]
  | .error _ => []

/-- The loop body of `async_producer` (executor.py:55-74): format each event,
serialize and enqueue every resulting payload.  `serialize_payload_for_sse`
never raises (it catches internally), so the inner `try/except` of lines 63-74
never takes its fallback arm; an exception from `format_event_for_ui` aborts
the loop.  Returns the enqueued lines and the exception, if one was raised. -/
def producer_loop (fs : Fs) (initial_state : PyDictL) :
    List PyDictL → List String × Option String
  | [] => ([], Option.none)
  | ev :: rest =>
    match format_event_for_ui fs ev initial_state with
    | .error e => ([], some e)
    | .ok payloads =>
      let lines := payloads.map serialize_payload_for_sse
      let (more, err) := producer_loop fs initial_state rest
      (lines ++ more, err)

/-- The internal error of a producer run: an exception raised inside the loop
(formatting), or else the exception the event stream itself ends with. -/
def producer_error (fs : Fs) (initial_state : PyDictL)
    (events : List PyDictL) (exc : Option String) : Option String :=
  match (producer_loop fs initial_state events).2 with
  | some e => some e
  | Option.none => exc

/-- Models `async_producer` (executor.py:35-89).  The underlying event stream is
modelled as the list of events it yields plus `exc`, the exception it raises
after them (`none` = normal completion).  The result is the full queue
content in push order; `Option.none` is the closing `None` sentinel. -/
def async_producer (fs : Fs) (initial_state : PyDictL)
    (events : List PyDictL) (exc : Option String) : List (Option String) :=
  let lines := (producer_loop fs initial_state events).1
  let errPart := match producer_error fs initial_state events exc with
    | some m => errorFrames m
    | Option.none => []
  (lines.map some) ++ (errPart.map some) ++ [some endLine, Option.none]

/-! ## `orchestrator.py` — intent classification -/

/-- Company policy keywords (orchestrator.py:122-131). -/
def policy_keywords : List String :=
  ["policy", "policies", "hr", "human resources", "vacation", "leave", "sick", "holiday",
   "dress code", "attendance", "remote work", "work from home", "benefits", "insurance",
   "harassment", "discrimination", "complaint", "procedure", "handbook", "employee",
   "employment", "contract", "agreement", "disciplinary", "termination", "salary",
   "pay", "compensation", "bonus", "raise", "promotion", "performance", "training",
   "development", "onboarding", "orientation", "safety", "security", "compliance",
   "regulation", "legal", "law", "rights", "responsibilities", "workplace", "office",
   "company", "organization", "corporate", "business", "work", "job", "career"]

/-- Casual conversation keywords (orchestrator.py:134-138). -/
def casual_keywords : List String :=
  ["hello", "hi", "hey", "good morning", "good afternoon", "good evening",
   "how are you", "what\x27s up", "thanks", "thank you", "bye", "goodbye",
   "see you", "have a good", "nice to meet", "pleasure", "welcome"]

/-- System capability keywords (orchestrator.py:141-144). -/
def capability_keywords : List String :=
  ["what can you", "what do you", "how can you", "what are you", "help me",
   "assist", "support", "capabilities", "features", "functions", "do for"]

/-- Conversation history keywords (orchestrator.py:147-151). -/
def history_keywords : List String :=
  ["previous", "before", "earlier", "last time", "conversation", "chat",
   "history", "asked", "questions", "messages", "what did i", "what was",
   "recall", "remember", "past", "earlier", "ago"]

/-- Models `Orchestrator._rule_based_classification` (orchestrator.py:117-179):
count keyword hits set by set, first non-empty count wins, policy first;
`none` models returning Python `None` (defer to the LLM). -/
def _rule_based_classification (message : String) : Option String :=
  let message_lower := stripStr (lowerStr message)
  let policy_matches := policy_keywords.countP (fun kw => strIn kw message_lower)
  if policy_matches > 0 then some "company_policy"
  else
    let casual_matches := casual_keywords.countP (fun kw => strIn kw message_lower)
    if casual_matches > 0 then some "general"
    else
      let capability_matches := capability_keywords.countP (fun kw => strIn kw message_lower)
      if capability_matches > 0 then some "general"
      else
        let history_matches := history_keywords.countP (fun kw => strIn kw message_lower)
        if history_matches > 0 then some "general"
        else Option.none

/-- Models `Orchestrator._llm_classification` (orchestrator.py:181-209).  The external
call is modelled by its outcome: `.ok content` is `response.content`,
`.error` any raised exception (the history load inside the same `try` never
raises — it catches internally). -/
def _llm_classification (llm_call : Except String String) : String :=
  match llm_call with
  | .error _ => "general"
  | .ok content =>
    let intent := lowerStr (stripStr content)
    if intent ≠ "company_policy" ∧ intent ≠ "general" then "general" else intent

/-! ## `graph.py` — nodes, routers, and the compiled company-policy graph -/

/-- Update returned by a node (merged into the state by the runtime). -/
abbrev NodeUpdate := List (String × PyVal)

/-- The database oracle behind `to_regclass` existence checks: given the
qualified temp-table name, return whether it exists, or raise. -/
abbrev Db := String → Except String Bool

/-- Outcomes of the external collaborators the nodes call
(history store, retrievers, LLM, document download). -/
structure NodeEnv where
  history : PyVal
  retrieve : Except String PyVal
  tempRetrieve : Except String PyVal
  llm : Except String String
  download : Except String String
  serializedHistory : PyVal

/-- Models `input_node` (graph.py:48-59): three `assert`s on required fields, then
`session_id.replace("-","_")` (which raises `AttributeError` on a truthy
non-string). -/
def input_node (st : PyDictL) : Except String NodeUpdate :=
  if ¬ (pyGet st "session_id").truthy then .error "session_id required"
  else if ¬ (pyGet st "message").truthy then .error "message required"
  else if ¬ (pyGet st "user_id").truthy then .error "user_id required"
  else match pyGet st "session_id" with
    | .str s => .ok [("safe_session_id", .str (replaceCharStr '-' "_" s))]
    | _ => .error "AttributeError: \x27replace\x27"

/-- Models `session_history_node` (graph.py:61-66); the orchestrator's
`get_session_history` never raises (it catches internally) and its result is
the `history` oracle. -/
def session_history_node (env : NodeEnv) (_st : PyDictL) : Except String NodeUpdate :=
  .ok [("history", env.history)]

/-- Models `policy_retriever_node` (graph.py:72-78): indexes `state["message"]`, then
calls the retriever (unhandled failure aborts the node). -/
def policy_retriever_node (env : NodeEnv) (st : PyDictL) : Except String NodeUpdate := do
  let _ ← pyIndex st "message"
  match env.retrieve with
  | .ok pc => .ok [("policy_context", pc)]
  | .error e => .error e

/-- Models `document_download_node` (graph.py:178-211): no URL → skip; download
failures are caught and yield an empty update. -/
def document_download_node (env : NodeEnv) (st : PyDictL) : Except String NodeUpdate :=
  if ¬ (pyGet st "document_url").truthy then .ok []
  else match env.download with
    | .ok p => .ok [("tmp_file_path", .str p)]
    | .error _ => .ok []

/-- Models `document_processing_node` (graph.py:213-255): missing path or session id
→ skip; the processor call and temp-file cleanup are caught, and the node
returns an empty update on every path. -/
def document_processing_node (st : PyDictL) : Except String NodeUpdate :=
  if ¬ (pyGet st "tmp_file_path").truthy then .ok []
  else if ¬ (pyGet st "safe_session_id").truthy then .ok []
  else .ok []

/-- Models `document_retriever_node` (graph.py:257-305): indexes `state["message"]`;
temp-retriever failures and non-`success` statuses yield an empty context. -/
def document_retriever_node (env : NodeEnv) (st : PyDictL) : Except String NodeUpdate := do
  let _ ← pyIndex st "message"
  if ¬ (pyGet st "safe_session_id").truthy then .ok [("doc_context", .list [])]
  else match env.tempRetrieve with
    | .error _ => .ok [("doc_context", .list [])]
    | .ok res =>
      match res with
      | .dict d =>
        if evEqStr (lookupD d "status" .none) "success" then
          .ok [("doc_context", lookupD d "chunks" (.list []))]
        else .ok [("doc_context", .list [])]
      | _ => .ok [("doc_context", .list [])]

/-- Models `context_combination_node` (graph.py:80-93), reproducing the f-string
layout of the combined context. -/
def context_combination_node (st : PyDictL) : Except String NodeUpdate := do
  let message ← pyIndex st "message"
  let policy_context := pyOr (pyGet st "policy_context") (.list [])
  let doc_context := pyOr (pyGet st "doc_context") (.list [])
  let combined_context :=
    "\n    Policy Context: " ++ pyStr policy_context
    ++ "\n    Document Context: " ++ pyStr doc_context ++ "\n    "
  .ok [("full_user_message",
        .str ("User Message: " ++ pyStr message ++ "\nContext: " ++ combined_context))]

/-- Models `llm_node` (graph.py:101-121): indexes `state["history"]` and
`state["full_user_message"]` outside its `try`; the LLM call is caught and
falls back to a fixed reply so the pipeline keeps moving. -/
def llm_node (env : NodeEnv) (st : PyDictL) : Except String NodeUpdate := do
  let _ ← pyIndex st "history"
  let _ ← pyIndex st "full_user_message"
  .ok [("response", .str (match env.llm with
    | .ok content => content
    | .error _ =>
      "I\x27m temporarily unavailable to generate a detailed answer, but I\x27ve recorded your question."))]

/-- Models `session_update_node` (graph.py:123-150): indexes `state["session_id"]`;
the history write is caught internally and the update is empty. -/
def session_update_node (st : PyDictL) : Except String NodeUpdate := do
  let _ ← pyIndex st "session_id"
  .ok []

/-- Models `output_node` (graph.py:152-176): returns the response text under
`content` plus the serialized history (empty when no session id). -/
def output_node (env : NodeEnv) (st : PyDictL) : Except String NodeUpdate :=
  let response_text := lookupD st "response" (.str "")
  let history_serialized :=
    if (pyGet st "session_id").truthy then env.serializedHistory else .list []
  .ok [("content", response_text), ("history", history_serialized)]

/-- The qualified temp-table name queried by both routers
(the literal `public.temp_documents_` followed by the safe session id). -/
def temp_table_name (safe : PyVal) : String :=
  "public.temp_documents_" ++ pyStr safe

/-- The `has_temp` computation shared by both routers (graph.py:336-350 and
385-399): query `to_regclass` for the session's temp table when a safe session
id is present; any exception during the check yields `false`. -/
def check_temp_table (db : Db) (st : PyDictL) : Bool :=
  let safe := pyGet st "safe_session_id"
  if safe.truthy then
    match db (temp_table_name safe) with
    | .ok b => b
    | .error _ => false
  else false

/-- Models `route_after_history` (graph.py:325-359): an existing temp table wins;
then a document URL selects the download path; else no document. -/
def route_after_history (db : Db) (st : PyDictL) : String :=
  let document_url := pyGet st "document_url"
  if check_temp_table db st then "has_doc"
  else if document_url.truthy then "with_doc"
  else "no_doc"

/-- Models `route_after_policy` (graph.py:375-406): re-checks the temp table. -/
def route_after_policy (db : Db) (st : PyDictL) : String :=
  if check_temp_table db st then "need_doc" else "no_doc_needed"

/-- The conditional-edge mapping after `history` (graph.py:361-369). -/
def route_after_history_map : List (String × String) :=
  [("with_doc", "doc_download"), ("has_doc", "policy_retriever"), ("no_doc", "policy_retriever")]

/-- The conditional-edge mapping after `policy_retriever` (graph.py:408-415). -/
def route_after_policy_map : List (String × String) :=
  [("need_doc", "doc_retriever"), ("no_doc_needed", "context_combine")]

/-- Label lookup in a conditional-edge mapping. -/
def lookupEdge : List (String × String) → String → Option String
  | [], _ => Option.none
  | (l, t) :: r, k => if l = k then some t else lookupEdge r k

/-- LangGraph's state merge: each key of the node's update overwrites or
extends the running state (spec §3 invariant 1, §4.1). -/
def setKV : PyDictL → String → PyVal → PyDictL
  | [], k, v => [(k, v)]
  | (k', v') :: r, k, v => if k' = k then (k, v) :: r else (k', v') :: setKV r k v

/-- Merge a node update into the running state. -/
def mergeState (st : PyDictL) (upd : NodeUpdate) : PyDictL :=
  upd.foldl (fun acc kv => setKV acc kv.1 kv.2) st

/-- Modelled from the spec (§4.1, §5): sequential execution of the
unconditional tail `context_combine → llm → session_update → output`
(graph.py:418-421), accumulating the executed node names; a node that raises
aborts the remaining path. -/
def runSegTail (env : NodeEnv) (st : PyDictL) : List String × Except String PyDictL :=
  match context_combination_node st with
  | .error e => (["context_combine"], .error e)
  | .ok u =>
    let st1 := mergeState st u
    match llm_node env st1 with
    | .error e => (["context_combine", "llm"], .error e)
    | .ok u =>
      let st2 := mergeState st1 u
      match session_update_node st2 with
      | .error e => (["context_combine", "llm", "session_update"], .error e)
      | .ok u =>
        let st3 := mergeState st2 u
        match output_node env st3 with
        | .error e => (["context_combine", "llm", "session_update", "output"], .error e)
        | .ok u => (["context_combine", "llm", "session_update", "output"],
                    .ok (mergeState st3 u))

/-- Modelled from the spec (§4.1, §5): execution from `policy_retriever`,
following the conditional edge chosen by `route_after_policy`
(graph.py:408-417). -/
def runFromPolicy (env : NodeEnv) (db : Db) (st : PyDictL) :
    List String × Except String PyDictL :=
  match policy_retriever_node env st with
  | .error e => (["policy_retriever"], .error e)
  | .ok u =>
    let st1 := mergeState st u
    match lookupEdge route_after_policy_map (route_after_policy db st1) with
    | some "doc_retriever" =>
      (match document_retriever_node env st1 with
       | .error e => (["policy_retriever", "doc_retriever"], .error e)
       | .ok u =>
         let st2 := mergeState st1 u
         let t := runSegTail env st2
         ("policy_retriever" :: "doc_retriever" :: t.1, t.2))
    | some "context_combine" =>
      let t := runSegTail env st1
      ("policy_retriever" :: t.1, t.2)
    | _ => (["policy_retriever"], .error "invalid conditional edge result")

/-- Modelled from the spec (§4.1, §5): the `doc_download → doc_process`
leg (graph.py:371-372) followed by the policy leg. -/
def runFromDoc (env : NodeEnv) (db : Db) (st : PyDictL) :
    List String × Except String PyDictL :=
  match document_download_node env st with
  | .error e => (["doc_download"], .error e)
  | .ok u =>
    let st1 := mergeState st u
    match document_processing_node st1 with
    | .error e => (["doc_download", "doc_process"], .error e)
    | .ok u =>
      let st2 := mergeState st1 u
      let t := runFromPolicy env db st2
      ("doc_download" :: "doc_process" :: t.1, t.2)

/-- Modelled from the spec (§4.1, §5): sequential single-path execution of the
graph compiled by `build_company_policy_graph` (graph.py:308-423), starting at
`input`, merging each node's update, and following the conditional edges.
Returns the executed node sequence and the final state (or the unhandled
exception that aborted the path). -/
def runCompanyPolicy (env : NodeEnv) (db : Db) (st : PyDictL) :
    List String × Except String PyDictL :=
  match input_node st with
  | .error e => (["input"], .error e)
  | .ok u =>
    let st1 := mergeState st u
    match session_history_node env st1 with
    | .error e => (["input", "history"], .error e)
    | .ok u =>
      let st2 := mergeState st1 u
      match lookupEdge route_after_history_map (route_after_history db st2) with
      | some "doc_download" =>
        let t := runFromDoc env db st2
        ("input" :: "history" :: t.1, t.2)
      | some "policy_retriever" =>
        let t := runFromPolicy env db st2
        ("input" :: "history" :: t.1, t.2)
      | _ => (["input", "history"], .error "invalid conditional edge result")

/-- The raw `on_chain_start` event the runtime emits when it begins a node
(spec §3: a start event always precedes the node's other events). -/
def onChainStartEvent (node : String) : PyDictL :=
  [("event", .str "on_chain_start"), ("name", .str node), ("data", .dict [])]

/-- Modelled from the spec (§3, §4.1): the raw event stream of a run whose
first node (`input`) raises with message `m` — the runtime emits the node's
`start` event, then the unhandled exception surfaces through the stream. -/
def failingRunStream (m : String) : List PyDictL × Option String :=
  ([onChainStartEvent "input"], some m)


/-! ## Definitions used by the claim statements -/

/-- The concrete error frame of the producer's `except` handler. -/
def errorLine (m : String) : String :=
  "data: \x7b\"type\": \"error\", \"error\": " ++ jsonQuote m ++ "\x7d\n\n"

/-- The C2 counterexample event: a dict whose `name` value is the integer 1. -/
def c2Event : PyDictL := [("name", PyVal.int 1)]

/-- Whether the event's `name` value lowercases without raising: it is a
string, or falsy (Python `or` replaces it with `""`). -/
def nameLowerOk (event : PyDictL) : Bool :=
  match pyLower (pyOr (pyGet event "name") (.str "")) with
  | .ok _ => true
  | .error _ => false

/-- The C6 counterexample initial state: `session_id` missing. -/
def c6State : PyDictL := [("message", .str "hello"), ("user_id", .str "u1")]

/-- The `session_id` value can be lowered into `_safe_session` without raising:
it is a string or falsy. -/
def strOrFalsy (v : PyVal) : Bool :=
  match v with
  | .str _ => true
  | v => !v.truthy

/-- A concrete external-collaborator environment for the C7 witness. -/
def env0 : NodeEnv :=
  ⟨.list [], .ok (.list []), .ok (.list []), .ok "hi", .ok "/tmp/x", .list []⟩

/-- The C7 witness initial state: valid required fields, no document URL. -/
def c7State : PyDictL :=
  [("session_id", .str "sess-1"), ("message", .str "What is the vacation policy?"),
   ("user_id", .str "u1")]

/-! ## Infrastructure lemmas -/

/-- Frames and payload classification used by the claims: a payload is
"application-typed" when its leading key is `type` with one of the five
payload type tags the formatter produces. -/
def payloadTypeOkB (p : PyVal) : Bool :=
  match p with
  | .dict ((k, .str t) :: _) =>
    k == "type" && (t == "stage" || t == "llm_stream" || t == "llm_final"
                    || t == "final" || t == "error")
  | _ => false

/-- The two characters of an SSE frame right after its 16-character prelude
(`data: ` and the opening of the JSON object up to the type tag's opening
quote) — they identify the frame's `type` tag. -/
def probeChars (s : String) : List Char := (s.data.drop 16).take 2

/-- An SSE frame whose JSON object starts with `"type": "t"`. -/
def frameTypeIs (t : String) (s : String) : Bool :=
  ("data: \x7b\"type\": \"" ++ t ++ "\"").data.isPrefixOf s.data

/-- Whether the first queue entry is a frame of the given type. -/
def firstFrameType (q : List (Option String)) (t : String) : Bool :=
  match q with
  | some s :: _ => frameTypeIs t s
  | _ => false

theorem string_eq_of_data {s t : String} (h : s.data = t.data) : s = t := by
  cases s; cases t; exact congrArg String.mk h

theorem data_append (s t : String) : (s ++ t).data = s.data ++ t.data :=
  String.data_append s t

theorem isPrefixOf_append_self (l1 l2 : List Char) : l1.isPrefixOf (l1 ++ l2) = true := by
  induction l1 with
  | nil => simp [List.isPrefixOf]
  | cons c r ih => simp [List.isPrefixOf]

theorem frameTypeIs_of_data {t s : String} (tail : List Char)
    (hs : s.data = ("data: \x7b\"type\": \"" ++ t ++ "\"").data ++ tail) :
    frameTypeIs t s = true := by
  unfold frameTypeIs
  rw [hs]
  exact isPrefixOf_append_self _ _

theorem probe_of_shape {s : String} {pre mid tail : List Char}
    (hs : s.data = pre ++ (mid ++ tail)) (hpre : pre.length = 16)
    (hmid : 2 ≤ mid.length) :
    probeChars s = mid.take 2 := by
  unfold probeChars
  rw [hs, ← hpre, List.drop_left, List.take_append_eq_append_take]
  have h0 : 2 - mid.length = 0 := by omega
  rw [h0, List.take_zero, List.append_nil]

theorem probe_congr {s t : String} (h : s = t) : probeChars s = probeChars t := by
  rw [h]

/-- Models `joinSep` on a nonempty list starts with its head. -/
theorem joinSep_cons (sep x : String) (xs : List String) :
    ∃ r, joinSep sep (x :: xs) = x ++ r := by
  cases xs with
  | nil => exact ⟨"", by simp [joinSep]⟩
  | cons y ys => exact ⟨sep ++ joinSep sep (y :: ys), by simp [joinSep, String.append_assoc]⟩

set_option linter.unreachableTactic false
set_option linter.unusedTactic false

theorem pyStr_str (s : String) : pyStr (.str s) = s := rfl

theorem jsonDumps_dict_data {t : String} {rest : PyDictL} {j : String}
    (hd : jsonDumps (.dict (("type", PyVal.str t) :: rest)) = .ok j) :
    ∃ tail, j.data = "\x7b\"type\": \"".data ++ ((jsonEscape t).data ++ ('"' :: tail)) := by
  cases hr : jsonDumpsKVs rest with
  | error e =>
    rw [show jsonDumps (.dict (("type", PyVal.str t) :: rest))
          = Except.error e from by
        simp [jsonDumps, jsonDumpsKVs, hr, Bind.bind, Except.bind]] at hd
    exact absurd hd (by simp)
  | ok parts =>
    have hj : j = "\x7b" ++ joinSep ", " ((jsonQuote "type" ++ ": " ++ jsonQuote t) :: parts) ++ "\x7d" := by
      have := hd
      simp [jsonDumps, jsonDumpsKVs, hr, Bind.bind, Except.bind, Pure.pure, Except.pure] at this
      exact this.symm
    obtain ⟨r, hjoin⟩ := joinSep_cons ", " (jsonQuote "type" ++ ": " ++ jsonQuote t) parts
    refine ⟨(r.data ++ "\x7d".data), ?_⟩
    rw [hj, hjoin]
    have hq : (jsonQuote "type") = "\"type\"" := rfl
    rw [hq]
    simp only [jsonQuote, data_append, List.append_assoc]
    rfl

theorem jsonDumps_two_str_ok (k1 k2 a b : String) :
    jsonDumps (.dict [(k1, .str a), (k2, .str b)])
      = .ok ("\x7b" ++ (jsonQuote k1 ++ ": " ++ jsonQuote a ++ (", " ++ (jsonQuote k2 ++ ": " ++ jsonQuote b))) ++ "\x7d") := by
  simp [jsonDumps, jsonDumpsKVs, Bind.bind, Except.bind, Pure.pure, Except.pure, joinSep,
        String.append_assoc]

theorem probe_endLine : probeChars endLine = ['e', 'n'] := rfl

theorem serialize_ne_endLine (p : PyVal) (h : payloadTypeOkB p = true) :
    serialize_payload_for_sse p ≠ endLine := by
  cases p with
  | dict kvs =>
    cases kvs with
    | nil => simp [payloadTypeOkB] at h
    | cons kv r =>
      obtain ⟨k, v⟩ := kv
      cases v with
      | str t =>
        simp only [payloadTypeOkB, Bool.and_eq_true, beq_iff_eq, Bool.or_eq_true] at h
        obtain ⟨hk, ht⟩ := h
        subst hk
        intro heq
        have hpq := probe_congr heq
        rw [probe_endLine] at hpq
        cases hd : jsonDumps (.dict (("type", PyVal.str t) :: r)) with
        | ok j =>
          obtain ⟨tail, hdata⟩ := jsonDumps_dict_data hd
          have hline : (serialize_payload_for_sse (.dict (("type", PyVal.str t) :: r))).data
              = ("data: ".data ++ "\x7b\"type\": \"".data)
                ++ ((jsonEscape t).data ++ (('"' :: tail) ++ "\n\n".data)) := by
            simp only [serialize_payload_for_sse, hd]
            simp only [data_append, hdata, List.append_assoc]
          have hprobe := probe_of_shape hline (by rfl)
            (by rcases ht with (((h5 | h5) | h5) | h5) | h5 <;> subst h5 <;> decide)
          rw [hprobe] at hpq
          exact absurd hpq
            (by rcases ht with (((h5 | h5) | h5) | h5) | h5 <;> subst h5 <;> decide)
        | error e =>
          have hline : (serialize_payload_for_sse (.dict (("type", PyVal.str t) :: r))).data
              = ("data: ".data ++ "\x7b\"type\": \"".data)
                ++ ((jsonEscape "event").data
                    ++ ("\", \"raw\": ".data
                        ++ ((jsonQuote (replaceCharStr '\n' "\\n"
                              (takeStr (pyStr (.dict (("type", PyVal.str t) :: r))) 200))).data
                            ++ "\x7d\n\n".data))) := by
            simp only [serialize_payload_for_sse, hd, jsonDumps_two_str_ok]
            simp only [data_append, List.append_assoc]
            rfl
          have hprobe := probe_of_shape hline (by rfl) (by decide)
          rw [hprobe] at hpq
          exact absurd hpq (by decide)
      | none => simp [payloadTypeOkB] at h
      | bool b => simp [payloadTypeOkB] at h
      | int n => simp [payloadTypeOkB] at h
      | list xs => simp [payloadTypeOkB] at h
      | dict d => simp [payloadTypeOkB] at h
      | obj o => simp [payloadTypeOkB] at h
  | none => simp [payloadTypeOkB] at h
  | bool b => simp [payloadTypeOkB] at h
  | int n => simp [payloadTypeOkB] at h
  | str s => simp [payloadTypeOkB] at h
  | list xs => simp [payloadTypeOkB] at h
  | obj o => simp [payloadTypeOkB] at h

theorem payloadTypeOk_buildStage (n m : String) (e : PyDictL) :
    payloadTypeOkB (_build_stage_payload n m e) = true := rfl

theorem payloadTypeOk_errorPayload (m : String) :
    payloadTypeOkB (errorPayload m) = true := rfl
theorem fmt_stream_types {nn : String} {ds : PyVal} {ps : List PyVal}
    (h : fmt_stream nn ds = .ok ps) : ∀ p ∈ ps, payloadTypeOkB p = true := by
  unfold fmt_stream at h
  simp only [Bind.bind, Except.bind] at h
  repeat' split at h
  all_goals
    first
    | exact absurd h (by simp)
    | (simp only [Pure.pure, Except.pure, Except.ok.injEq] at h
       subst h
       intro p hp
       simp at hp
       all_goals
         first
         | (obtain ⟨-, hp⟩ := hp
            subst hp
            rfl)
         | (subst hp
            rfl))

theorem fmt_model_end_types (nn : String) (o d : PyVal) :
    ∀ p ∈ fmt_model_end nn o d, payloadTypeOkB p = true := by
  intro p hp
  unfold fmt_model_end at hp
  repeat' split at hp
  all_goals simp at hp
  all_goals
    first
    | (obtain ⟨-, hp⟩ := hp
       subst hp
       rfl)
    | (subst hp
       rfl)

theorem fmt_input_types {et o : PyVal} {ist : PyDictL} {ps : List PyVal}
    (h : fmt_input et o ist = .ok ps) : ∀ p ∈ ps, payloadTypeOkB p = true := by
  unfold fmt_input at h
  simp only [Bind.bind, Except.bind] at h
  repeat' split at h
  all_goals
    first
    | exact absurd h (by simp)
    | (simp only [Pure.pure, Except.pure, Except.ok.injEq] at h
       subst h
       intro p hp
       simp at hp
       all_goals
         first
         | (obtain ⟨-, hp⟩ := hp
            subst hp
            rfl)
         | (subst hp
            rfl))

theorem fmt_history_types (o : PyVal) (snap : PyDictL) :
    ∀ p ∈ fmt_history o snap, payloadTypeOkB p = true := by
  intro p hp
  unfold fmt_history at hp
  repeat' split at hp
  all_goals simp at hp
  all_goals
    first
    | (obtain ⟨-, hp⟩ := hp
       subst hp
       rfl)
    | (subst hp
       rfl)

theorem fmt_doc_download_types {fs : Fs} {et o : PyVal} {snap ist : PyDictL} {ps : List PyVal}
    (h : fmt_doc_download fs et o snap ist = .ok ps) : ∀ p ∈ ps, payloadTypeOkB p = true := by
  unfold fmt_doc_download at h
  simp only [Bind.bind, Except.bind] at h
  repeat' split at h
  all_goals
    first
    | exact absurd h (by simp)
    | (simp only [Pure.pure, Except.pure, Except.ok.injEq] at h
       subst h
       intro p hp
       simp at hp
       all_goals
         first
         | (obtain ⟨-, hp⟩ := hp
            subst hp
            rfl)
         | (subst hp
            rfl))

theorem fmt_doc_process_types (et : PyVal) :
    ∀ p ∈ fmt_doc_process et, payloadTypeOkB p = true := by
  intro p hp
  unfold fmt_doc_process at hp
  repeat' split at hp
  all_goals simp at hp
  all_goals
    first
    | (obtain ⟨-, hp⟩ := hp
       subst hp
       rfl)
    | (subst hp
       rfl)

theorem fmt_policy_retriever_types (o : PyVal) (snap : PyDictL) :
    ∀ p ∈ fmt_policy_retriever o snap, payloadTypeOkB p = true := by
  intro p hp
  unfold fmt_policy_retriever at hp
  repeat' split at hp
  all_goals simp at hp
  all_goals
    first
    | (obtain ⟨-, hp⟩ := hp
       subst hp
       rfl)
    | (subst hp
       rfl)

theorem fmt_doc_retriever_types (o : PyVal) (snap : PyDictL) :
    ∀ p ∈ fmt_doc_retriever o snap, payloadTypeOkB p = true := by
  intro p hp
  unfold fmt_doc_retriever at hp
  repeat' split at hp
  all_goals simp at hp
  all_goals
    first
    | (obtain ⟨-, hp⟩ := hp
       subst hp
       rfl)
    | (subst hp
       rfl)

theorem fmt_context_combine_types (o : PyVal) (snap : PyDictL) :
    ∀ p ∈ fmt_context_combine o snap, payloadTypeOkB p = true := by
  intro p hp
  unfold fmt_context_combine at hp
  repeat' split at hp
  all_goals simp at hp
  all_goals
    first
    | (obtain ⟨-, hp⟩ := hp
       subst hp
       rfl)
    | (subst hp
       rfl)

theorem fmt_llm_start_types  :
    ∀ p ∈ fmt_llm_start, payloadTypeOkB p = true := by
  intro p hp
  unfold fmt_llm_start at hp
  repeat' split at hp
  all_goals simp at hp
  all_goals
    first
    | (obtain ⟨-, hp⟩ := hp
       subst hp
       rfl)
    | (subst hp
       rfl)

theorem fmt_session_update_types  :
    ∀ p ∈ fmt_session_update, payloadTypeOkB p = true := by
  intro p hp
  unfold fmt_session_update at hp
  repeat' split at hp
  all_goals simp at hp
  all_goals
    first
    | (obtain ⟨-, hp⟩ := hp
       subst hp
       rfl)
    | (subst hp
       rfl)

theorem fmt_output_types (nn : String) (o d : PyVal) :
    ∀ p ∈ fmt_output nn o d, payloadTypeOkB p = true := by
  intro p hp
  unfold fmt_output at hp
  repeat' split at hp
  all_goals simp at hp
  all_goals
    first
    | (obtain ⟨-, hp⟩ := hp
       subst hp
       rfl)
    | (subst hp
       rfl)

theorem fmt_generic_types (et : PyVal) (nn : String) :
    ∀ p ∈ fmt_generic et nn, payloadTypeOkB p = true := by
  intro p hp
  unfold fmt_generic at hp
  repeat' split at hp
  all_goals simp at hp
  all_goals
    first
    | (obtain ⟨-, hp⟩ := hp
       subst hp
       rfl)
    | (subst hp
       rfl)

theorem format_dispatch_types {fs : Fs} {ist : PyDictL} {nn : String}
    {et ds : PyVal} {snap : PyDictL} {o : PyVal} {ps : List PyVal}
    (h : format_dispatch fs ist nn et ds snap o = .ok ps) :
    ∀ p ∈ ps, payloadTypeOkB p = true := by
  unfold format_dispatch at h
  by_cases h1 : evEqStr et "on_chat_model_stream" = true
  · rw [if_pos h1] at h
    exact fmt_stream_types h
  rw [if_neg h1] at h
  by_cases h2 : evEqStr et "on_chat_model_end" = true
  · rw [if_pos h2] at h
    simp only [Pure.pure, Except.pure, Except.ok.injEq] at h
    subst h
    exact fmt_model_end_types _ _ _
  rw [if_neg h2] at h
  by_cases h3 : (nn == "input" || nn == "input_node") = true
  · rw [if_pos h3] at h
    exact fmt_input_types h
  rw [if_neg h3] at h
  by_cases h4 : ((nn == "history" || nn == "session_history_node") && evEqStr et "on_chain_end") = true
  · rw [if_pos h4] at h
    simp only [Pure.pure, Except.pure, Except.ok.injEq] at h
    subst h
    exact fmt_history_types _ _
  rw [if_neg h4] at h
  by_cases h5 : (nn == "doc_download" || nn == "document_download_node") = true
  · rw [if_pos h5] at h
    exact fmt_doc_download_types h
  rw [if_neg h5] at h
  by_cases h6 : (nn == "doc_process" || nn == "document_processing_node") = true
  · rw [if_pos h6] at h
    simp only [Pure.pure, Except.pure, Except.ok.injEq] at h
    subst h
    exact fmt_doc_process_types _
  rw [if_neg h6] at h
  by_cases h7 : ((nn == "policy_retriever" || nn == "policy_retriever_node") && evEqStr et "on_chain_end") = true
  · rw [if_pos h7] at h
    simp only [Pure.pure, Except.pure, Except.ok.injEq] at h
    subst h
    exact fmt_policy_retriever_types _ _
  rw [if_neg h7] at h
  by_cases h8 : ((nn == "doc_retriever" || nn == "document_retriever_node") && evEqStr et "on_chain_end") = true
  · rw [if_pos h8] at h
    simp only [Pure.pure, Except.pure, Except.ok.injEq] at h
    subst h
    exact fmt_doc_retriever_types _ _
  rw [if_neg h8] at h
  by_cases h9 : ((nn == "context_combine" || nn == "context_combination_node") && evEqStr et "on_chain_end") = true
  · rw [if_pos h9] at h
    simp only [Pure.pure, Except.pure, Except.ok.injEq] at h
    subst h
    exact fmt_context_combine_types _ _
  rw [if_neg h9] at h
  by_cases h10 : ((nn == "llm" || nn == "llm_node") && evEqStr et "on_chain_start") = true
  · rw [if_pos h10] at h
    simp only [Pure.pure, Except.pure, Except.ok.injEq] at h
    subst h
    exact fmt_llm_start_types
  rw [if_neg h10] at h
  by_cases h11 : ((nn == "session_update" || nn == "session_update_node") && evEqStr et "on_chain_end") = true
  · rw [if_pos h11] at h
    simp only [Pure.pure, Except.pure, Except.ok.injEq] at h
    subst h
    exact fmt_session_update_types
  rw [if_neg h11] at h
  by_cases h12 : ((nn == "output" || nn == "output_node") && evEqStr et "on_chain_end") = true
  · rw [if_pos h12] at h
    simp only [Pure.pure, Except.pure, Except.ok.injEq] at h
    subst h
    exact fmt_output_types _ _ _
  rw [if_neg h12] at h
  by_cases h13 : ((evEqStr et "on_chain_start" || evEqStr et "on_chain_end") && nn != "") = true
  · rw [if_pos h13] at h
    simp only [Pure.pure, Except.pure, Except.ok.injEq] at h
    subst h
    exact fmt_generic_types _ _
  rw [if_neg h13] at h
  simp only [Pure.pure, Except.pure, Except.ok.injEq] at h
  subst h
  intro p hp
  simp at hp

theorem format_body_types {fs : Fs} {ev ist : PyDictL} {ps : List PyVal}
    (h : format_body fs ev ist = .ok ps) : ∀ p ∈ ps, payloadTypeOkB p = true := by
  unfold format_body at h
  cases hn : pyLower (pyOr (pyGet ev "name") (.str "")) <;> rw [hn] at h
  · exact absurd h (by simp)
  · exact format_dispatch_types h

theorem format_event_types {fs : Fs} {ev ist : PyDictL} {ps : List PyVal}
    (h : format_event_for_ui fs ev ist = .ok ps) : ∀ p ∈ ps, payloadTypeOkB p = true := by
  unfold format_event_for_ui at h
  cases hn : pyLower (pyOr (pyGet ev "name") (.str "")) <;> rw [hn] at h
  · exact absurd h (by simp)
  · cases hb : format_body fs ev ist <;> rw [hb] at h <;>
      simp only [Except.ok.injEq] at h <;> subst h
    · intro p hp
      simp at hp
      subst hp
      exact payloadTypeOk_errorPayload _
    · exact format_body_types hb

/-- Every line the producer loop enqueues is the serialization of an
application-typed payload. -/
theorem producer_loop_mem {fs : Fs} {ist : PyDictL} {events : List PyDictL} :
    ∀ l ∈ (producer_loop fs ist events).1,
      ∃ p, payloadTypeOkB p = true ∧ l = serialize_payload_for_sse p := by
  induction events with
  | nil => intro l hl; simp [producer_loop] at hl
  | cons ev rest ih =>
    intro l hl
    unfold producer_loop at hl
    cases hf : format_event_for_ui fs ev ist with
    | error e => rw [hf] at hl; simp at hl
    | ok ps =>
      rw [hf] at hl
      simp at hl
      rcases hl with ⟨p, hp, rfl⟩ | hl
      · exact ⟨p, format_event_types hf p hp, rfl⟩
      · exact ih l hl



theorem errorFrames_eq (m : String) : errorFrames m = [errorLine m] := by
  unfold errorFrames
  rw [jsonDumps_two_str_ok]
  refine congrArg (fun s => [s]) ?_
  apply string_eq_of_data
  simp only [errorLine, data_append, List.append_assoc]
  rfl

theorem frameTypeIs_errorLine (m : String) : frameTypeIs "error" (errorLine m) = true := by
  apply frameTypeIs_of_data
    ((", \"error\": " : String).data ++ ((jsonQuote m).data ++ ("\x7d\n\n" : String).data))
  simp only [errorLine, data_append, List.append_assoc]
  rfl

theorem errorLine_ne_endLine (m : String) : errorLine m ≠ endLine := by
  intro heq
  have hpq := probe_congr heq
  rw [probe_endLine] at hpq
  have hline : (errorLine m).data
      = ("data: \x7b\"type\": \"" : String).data
        ++ (("error" : String).data
            ++ (("\", \"error\": " : String).data
                ++ ((jsonQuote m).data ++ ("\x7d\n\n" : String).data))) := by
    simp only [errorLine, data_append, List.append_assoc]
    rfl
  have hprobe := probe_of_shape hline (by rfl) (by decide)
  rw [hprobe] at hpq
  exact absurd hpq (by decide)

/-- C1: for every run driven by `async_producer` — whatever events the stream
yields and whether it then completes normally or raises — the queue consists of
some application frames, then exactly one `end` frame (no earlier frame equals
it), then only the `None` close sentinel; and when an internal error occurred
(a formatting exception or a stream exception), the frame immediately before
the `end` frame is the `error` frame carrying its message. -/
theorem C1_producer_terminal_frames (fs : Fs) (ist : PyDictL)
    (events : List PyDictL) (exc : Option String) :
    ∃ pre : List String,
      async_producer fs ist events exc = pre.map some ++ [some endLine, Option.none]
      ∧ (∀ l ∈ pre, l ≠ endLine)
      ∧ (∀ m, producer_error fs ist events exc = some m →
          ∃ pre0, pre = pre0 ++ [errorLine m])
      ∧ (producer_error fs ist events exc = Option.none →
          pre = (producer_loop fs ist events).1) := by
  refine ⟨(producer_loop fs ist events).1
    ++ (match producer_error fs ist events exc with
        | some m => errorFrames m
        | Option.none => []), ?_, ?_, ?_, ?_⟩
  · unfold async_producer
    cases hpe : producer_error fs ist events exc <;>
      simp [hpe, List.map_append]
  · intro l hl
    rcases List.mem_append.mp hl with hl | hl
    · obtain ⟨p, hptype, rfl⟩ := producer_loop_mem l hl
      exact serialize_ne_endLine p hptype
    · cases hpe : producer_error fs ist events exc with
      | none => rw [hpe] at hl; simp at hl
      | some m =>
        simp only [hpe, errorFrames_eq] at hl
        simp at hl
        subst hl
        exact errorLine_ne_endLine m
  · intro m hm
    refine ⟨(producer_loop fs ist events).1, ?_⟩
    simp only [hm, errorFrames_eq]
  · intro hm
    simp only [hm, List.append_nil]

/-! ## Claims C2 and C3 -/



/-- C2 (counterexample): on an event dict whose `name` is a truthy non-string,
`format_event_for_ui` does not return normally — `( event.get("name") or
"").lower()` raises inside the `try`, the handler builds the error payload,
but the final logging statement references the unbound `ev_type` and raises
`NameError`, which propagates to the caller. -/
theorem C2_counterexample :
    format_event_for_ui (fun _ => Option.none) c2Event []
      = .error "NameError: name \x27ev_type\x27 is not defined" := rfl



/-- C2 (amended): for every event dict whose `name` value is a string or
falsy, `format_event_for_ui` returns normally; and whenever an exception is
raised during formatting, the returned list is exactly the one error-tagged
payload carrying `type = error` and the exception message. -/
theorem C2_formatter_total (fs : Fs) (event ist : PyDictL)
    (h : nameLowerOk event = true) :
    (∃ ps, format_body fs event ist = .ok ps ∧ format_event_for_ui fs event ist = .ok ps)
    ∨ (∃ m, format_body fs event ist = .error m
         ∧ format_event_for_ui fs event ist = .ok [errorPayload m]) := by
  unfold nameLowerOk at h
  cases hn : pyLower (pyOr (pyGet event "name") (.str "")) with
  | error e => rw [hn] at h; simp at h
  | ok nn =>
    cases hb : format_body fs event ist with
    | ok ps =>
      left
      refine ⟨ps, rfl, ?_⟩
      unfold format_event_for_ui
      simp only [hn, hb]
    | error m =>
      right
      refine ⟨m, rfl, ?_⟩
      unfold format_event_for_ui
      simp only [hn, hb]

/-- Witness for C2 (amended), at the concrete input-start event. -/
theorem C2_formatter_total_witness :
    (∃ ps, format_body (fun _ => Option.none) (onChainStartEvent "input") [] = .ok ps
        ∧ format_event_for_ui (fun _ => Option.none) (onChainStartEvent "input") [] = .ok ps)
    ∨ (∃ m, format_body (fun _ => Option.none) (onChainStartEvent "input") [] = .error m
        ∧ format_event_for_ui (fun _ => Option.none) (onChainStartEvent "input") []
            = .ok [errorPayload m]) :=
  C2_formatter_total (fun _ => Option.none) (onChainStartEvent "input") [] (by rfl)

/-- C3 (counterexample): `_truncate("a bcd", 3)` gives `"a…"`, not the
claim's "cut to N characters plus ellipsis", which would be `"a b…"`. -/
theorem C3_counterexample :
    _truncate (.str "a bcd") 3 = "a…"
    ∧ String.mk (("a bcd" : String).data.take 3) ++ "…" = "a b…"
    ∧ ("a…" : String) ≠ "a b…" := by
  refine ⟨rfl, rfl, by decide⟩

theorem rstripChars_take (l : List Char) : ∃ k, rstripChars l = l.take k := by
  obtain ⟨u, hu⟩ := List.dropWhile_suffix (l := l.reverse) isSpaceChar
  have hl : (l.reverse.dropWhile isSpaceChar).reverse ++ u.reverse = l := by
    have h2 := congrArg List.reverse hu
    simpa using h2
  refine ⟨(l.reverse.dropWhile isSpaceChar).reverse.length, ?_⟩
  unfold rstripChars
  set d := (l.reverse.dropWhile isSpaceChar).reverse with hd
  rw [← hl, List.take_left]

/-- C3 (amended): for every string and limit `N ≥ 1`: a string within the
limit passes through unchanged; a longer string is cut to `N - 1` characters,
trailing whitespace is stripped, and a single ellipsis character is appended —
and the part before the ellipsis is a take of the original string's codepoint
list, so the cut never splits a codepoint. -/
theorem C3_truncate (s : String) (N : Nat) (h1 : 1 ≤ N) :
    (s.length ≤ N → _truncate (.str s) (N : Int) = s)
    ∧ (N < s.length →
        _truncate (.str s) (N : Int) = rstripStr (takeStr s (N - 1)) ++ "…"
        ∧ ∃ k, (rstripStr (takeStr s (N - 1))).data = s.data.take k) := by
  constructor
  · intro hle
    simp only [_truncate, pyStr_str]
    rw [if_pos (by exact_mod_cast hle)]
  · intro hgt
    have hslice : sliceTo s ((N : Int) - 1) = takeStr s (N - 1) := by
      have hnn : ¬((N : Int) - 1 < 0) := by omega
      have htn : ((N : Int) - 1).toNat = N - 1 := by omega
      unfold sliceTo takeStr
      rw [if_neg hnn, htn]
    constructor
    · simp only [_truncate, pyStr_str]
      rw [if_neg (by exact_mod_cast Nat.not_le.mpr hgt), hslice]
    · obtain ⟨k0, hk0⟩ := rstripChars_take (takeStr s (N - 1)).data
      refine ⟨min k0 (N - 1), ?_⟩
      unfold rstripStr
      rw [hk0]
      unfold takeStr
      simp [List.take_take]

/-- Witness for C3 (amended) at `s = "a x "`, `N = 4`. -/
theorem C3_truncate_witness :
    ((("a x y" : String).length ≤ 4 → _truncate (.str "a x y") (4 : Int) = "a x y")
    ∧ (4 < ("a x y" : String).length →
        _truncate (.str "a x y") (4 : Int) = rstripStr (takeStr "a x y" (4 - 1)) ++ "…"
        ∧ ∃ k, (rstripStr (takeStr "a x y" (4 - 1))).data = ("a x y" : String).data.take k)) :=
  C3_truncate "a x y" 4 (by decide)

/-! ## Claims C4 and C5 -/

/-- C4: the rule-based classifier returns `company_policy` for every message
whose lower-cased, trimmed text contains at least one policy keyword (even if
casual/capability/history keywords also occur, since the policy set is checked
first); and it returns no label when no keyword of any of the four sets
occurs. -/
theorem C4_rule_classification (message : String) :
    (policy_keywords.any (fun kw => strIn kw (stripStr (lowerStr message))) = true →
      _rule_based_classification message = some "company_policy")
    ∧ ((policy_keywords ++ casual_keywords ++ capability_keywords ++ history_keywords).all
        (fun kw => !(strIn kw (stripStr (lowerStr message)))) = true →
      _rule_based_classification message = Option.none) := by
  constructor
  · intro h
    unfold _rule_based_classification
    rw [if_pos (List.countP_pos.mpr (List.any_eq_true.mp h))]
  · intro h
    have hall := List.all_eq_true.mp h
    unfold _rule_based_classification
    rw [if_neg, if_neg, if_neg, if_neg]
    all_goals
      first
      | rfl
      | (simp only [Nat.not_lt, Nat.le_zero, List.countP_eq_zero]
         intro kw hkw
         have hh := hall kw (by simp [hkw])
         simpa using hh)

/-- Witness for C4: a message holding both a casual keyword (`hello`) and
policy keywords still classifies as `company_policy`; a keyword-free message
gets no rule label. -/
theorem C4_rule_classification_witness :
    _rule_based_classification "hello, what is the vacation policy?" = some "company_policy"
    ∧ _rule_based_classification "zzz" = Option.none :=
  ⟨(C4_rule_classification "hello, what is the vacation policy?").1 (by decide),
   (C4_rule_classification "zzz").2 (by decide)⟩

/-- C5: LLM-fallback classification always lands in one of the two labels;
any response (after strip and lower-casing) outside the two labels is coerced
to `general`; an exception from the call also yields `general`. -/
theorem C5_llm_classification (llm_call : Except String String) :
    (_llm_classification llm_call = "company_policy"
      ∨ _llm_classification llm_call = "general")
    ∧ (∀ c, llm_call = .ok c →
        lowerStr (stripStr c) ≠ "company_policy" → lowerStr (stripStr c) ≠ "general" →
        _llm_classification llm_call = "general")
    ∧ (∀ m, llm_call = .error m → _llm_classification llm_call = "general") := by
  cases llm_call with
  | error m =>
    refine ⟨Or.inr rfl, ?_, ?_⟩
    · intro c hc
      exact absurd hc (by simp)
    · intro m' _
      rfl
  | ok c =>
    simp only [_llm_classification]
    by_cases hcp : lowerStr (stripStr c) = "company_policy"
    · rw [if_neg (by simp [hcp])]
      refine ⟨Or.inl hcp, ?_, ?_⟩
      · intro c' hc'
        simp only [Except.ok.injEq] at hc'
        subst hc'
        intro hne
        exact absurd hcp hne
      · intro m' hm'
        exact absurd hm' (by simp)
    · by_cases hg : lowerStr (stripStr c) = "general"
      · rw [if_neg (by simp [hg])]
        refine ⟨Or.inr hg, ?_, ?_⟩
        · intro c' hc'
          simp only [Except.ok.injEq] at hc'
          subst hc'
          intro _ hne
          exact absurd hg hne
        · intro m' hm'
          exact absurd hm' (by simp)
      · rw [if_pos (by exact ⟨hcp, hg⟩)]
        refine ⟨Or.inr rfl, ?_, ?_⟩
        · intro c' hc' _ _
          rfl
        · intro m' hm'
          exact absurd hm' (by simp)

/-- Witness for C5: an off-label response and a raising call both coerce to
`general`. -/
theorem C5_llm_classification_witness :
    _llm_classification (.ok " Maybe policy? ") = "general"
    ∧ _llm_classification (.error "timeout") = "general" :=
  ⟨(C5_llm_classification (.ok " Maybe policy? ")).2.1 " Maybe policy? " rfl
      (by decide) (by decide),
   (C5_llm_classification (.error "timeout")).2.2 "timeout" rfl⟩

/-! ## Claim C6 -/

/-- A dict all of whose values are strings serializes without error. -/
theorem jsonDumpsKVs_all_str {kvs : PyDictL}
    (h : ∀ kv ∈ kvs, ∃ s, kv.2 = PyVal.str s) :
    ∃ parts, jsonDumpsKVs kvs = .ok parts := by
  induction kvs with
  | nil => exact ⟨[], rfl⟩
  | cons kv rest ih =>
    obtain ⟨parts, hp⟩ := ih (fun kv' hm => h kv' (List.mem_cons_of_mem _ hm))
    obtain ⟨s, hs⟩ := h kv (List.mem_cons_self _ _)
    obtain ⟨k, v⟩ := kv
    simp only at hs
    subst hs
    refine ⟨(jsonQuote k ++ ": " ++ jsonQuote s) :: parts, ?_⟩
    simp [jsonDumpsKVs, jsonDumps, hp, Bind.bind, Except.bind, Pure.pure, Except.pure]

/-- Serializing a payload dict whose type tag needs no JSON escaping and whose
remaining values are all strings yields a frame of that type. -/
theorem serialize_typed_frame (t : String) (rest : PyDictL)
    (hesc : jsonEscape t = t)
    (hstr : ∀ kv ∈ rest, ∃ s, kv.2 = PyVal.str s) :
    frameTypeIs t (serialize_payload_for_sse (.dict (("type", PyVal.str t) :: rest))) = true := by
  obtain ⟨parts, hp⟩ := jsonDumpsKVs_all_str hstr
  have hok : ∃ j, jsonDumps (.dict (("type", PyVal.str t) :: rest)) = .ok j := by
    refine ⟨"\x7b" ++ joinSep ", " ((jsonQuote "type" ++ ": " ++ jsonQuote t) :: parts) ++ "\x7d", ?_⟩
    simp [jsonDumps, jsonDumpsKVs, hp, Bind.bind, Except.bind, Pure.pure, Except.pure]
  obtain ⟨j, hj⟩ := hok
  obtain ⟨tail, hdata⟩ := jsonDumps_dict_data hj
  apply frameTypeIs_of_data (tail ++ ("\n\n" : String).data)
  simp only [serialize_payload_for_sse, hj, data_append, hdata, hesc, List.append_assoc]
  rfl



/-- C6 (counterexample): for the initial state missing `session_id`, the
spec-modelled run pushes four queue items, and the first application frame is
the input node's `stage` frame, not an `error` frame — the claim's "first and
only application frame before `end` is an `error` frame" fails. -/
theorem C6_counterexample :
    input_node c6State = .error "session_id required"
    ∧ (async_producer (fun _ => Option.none) c6State
        (failingRunStream "session_id required").1
        (failingRunStream "session_id required").2).length = 4
    ∧ firstFrameType (async_producer (fun _ => Option.none) c6State
        (failingRunStream "session_id required").1
        (failingRunStream "session_id required").2) "stage" = true
    ∧ firstFrameType (async_producer (fun _ => Option.none) c6State
        (failingRunStream "session_id required").1
        (failingRunStream "session_id required").2) "error" = false := by
  refine ⟨rfl, rfl, ?_, ?_⟩ <;> decide



theorem pyOr_str_of_strOrFalsy {v : PyVal} (h : strOrFalsy v = true) :
    ∃ s, pyOr v (.str "") = .str s := by
  unfold pyOr
  cases v with
  | str s =>
    by_cases ht : PyVal.truthy (.str s) = true
    · rw [if_pos ht]; exact ⟨s, rfl⟩
    · rw [if_neg ht]; exact ⟨"", rfl⟩
  | none => exact ⟨"", rfl⟩
  | bool b =>
    simp only [strOrFalsy, Bool.not_eq_eq_eq_not, Bool.not_true] at h
    rw [if_neg (by simp [h])]
    exact ⟨"", rfl⟩
  | int n =>
    simp only [strOrFalsy, Bool.not_eq_eq_eq_not, Bool.not_true] at h
    rw [if_neg (by simp [h])]
    exact ⟨"", rfl⟩
  | list xs =>
    simp only [strOrFalsy, Bool.not_eq_eq_eq_not, Bool.not_true] at h
    rw [if_neg (by simp [h])]
    exact ⟨"", rfl⟩
  | dict kvs =>
    simp only [strOrFalsy, Bool.not_eq_eq_eq_not, Bool.not_true] at h
    rw [if_neg (by simp [h])]
    exact ⟨"", rfl⟩
  | obj r =>
    simp only [strOrFalsy, Bool.not_eq_eq_eq_not, Bool.not_true] at h
    rw [if_neg (by simp [h])]
    exact ⟨"", rfl⟩

theorem safe_session_ok {v : PyVal} (h : strOrFalsy v = true) :
    ∃ s, _safe_session v = .ok s := by
  obtain ⟨s, hs⟩ := pyOr_str_of_strOrFalsy h
  exact ⟨replaceCharStr '-' "_" s, by unfold _safe_session; rw [hs]⟩

/-- The formatter's output on the input node's start event. -/
theorem format_input_start (fs : Fs) (ist : PyDictL) (s0 : String)
    (hss : _safe_session (pyGet ist "session_id") = .ok s0) :
    format_event_for_ui fs (onChainStartEvent "input") ist
      = .ok [_build_stage_payload "input" "Validating session & user input…"
          [("session", .str s0),
           ("user_message", .str (_truncate (pyGet ist "message") 120))]] := by
  have hb : format_body fs (onChainStartEvent "input") ist
      = .ok [_build_stage_payload "input" "Validating session & user input…"
          [("session", .str s0),
           ("user_message", .str (_truncate (pyGet ist "message") 120))]] := by
    have hred : format_body fs (onChainStartEvent "input") ist
        = fmt_input (.str "on_chain_start") PyVal.none ist := rfl
    rw [hred]
    unfold fmt_input
    rw [if_pos (show evEqStr (PyVal.str "on_chain_start") "on_chain_start" = true from rfl)]
    simp only [hss, Bind.bind, Except.bind, Pure.pure, Except.pure]
  unfold format_event_for_ui
  simp only [hb]
  rfl

theorem serialize_buildStage_frame (n m : String) (extra : PyDictL)
    (hstr : ∀ kv ∈ extra.filter notNoneKV, ∃ s, kv.2 = PyVal.str s) :
    frameTypeIs "stage" (serialize_payload_for_sse (_build_stage_payload n m extra)) = true := by
  have h2 : _build_stage_payload n m extra
      = .dict (("type", PyVal.str "stage") :: (("node", .str n) :: ("message", .str m)
          :: extra.filter notNoneKV)) := rfl
  rw [h2]
  apply serialize_typed_frame "stage" _ (by decide)
  intro kv hm
  simp only [List.mem_cons] at hm
  rcases hm with rfl | rfl | hm
  · exact ⟨n, rfl⟩
  · exact ⟨m, rfl⟩
  · exact hstr kv hm

theorem frameTypeIs_endLine : frameTypeIs "end" endLine = true := by decide

/-- C6 (amended): for every initial state whose `session_id` is a string or
absent/falsy and which fails input validation (missing/empty required field),
the spec-modelled run aborts at the input node: the queue is exactly the input
node's start `stage` frame, then the `error` frame with the validation
message, then the `end` frame, then the close sentinel — so the error frame
immediately precedes `end`, preceded only by the input-validation stage
announcement. -/
theorem C6_failing_validation (fs : Fs) (ist : PyDictL) (m : String)
    (hsess : strOrFalsy (pyGet ist "session_id") = true)
    (hfail : input_node ist = .error m) :
    ∃ stageLine : String,
      async_producer fs ist (failingRunStream m).1 (failingRunStream m).2
        = [some stageLine, some (errorLine m), some endLine, Option.none]
      ∧ frameTypeIs "stage" stageLine = true
      ∧ frameTypeIs "error" (errorLine m) = true
      ∧ frameTypeIs "end" endLine = true := by
  obtain ⟨s0, hss⟩ := safe_session_ok hsess
  have hfmt := format_input_start fs ist s0 hss
  refine ⟨serialize_payload_for_sse (_build_stage_payload "input"
      "Validating session & user input…"
      [("session", .str s0),
       ("user_message", .str (_truncate (pyGet ist "message") 120))]), ?_, ?_,
    frameTypeIs_errorLine m, frameTypeIs_endLine⟩
  · simp [async_producer, producer_error, producer_loop, failingRunStream, hfmt, errorFrames_eq]
  · apply serialize_buildStage_frame
    intro kv hm
    simp only [List.mem_filter, List.mem_cons] at hm
    rcases hm with ⟨rfl | rfl | hm, -⟩
    · exact ⟨s0, rfl⟩
    · exact ⟨_, rfl⟩
    · exact absurd hm (by simp)

/-- Witness for C6 (amended) at the concrete state missing `session_id`. -/
theorem C6_failing_validation_witness :
    ∃ stageLine : String,
      async_producer (fun _ => Option.none) c6State
          (failingRunStream "session_id required").1
          (failingRunStream "session_id required").2
        = [some stageLine, some (errorLine "session_id required"), some endLine, Option.none]
      ∧ frameTypeIs "stage" stageLine = true
      ∧ frameTypeIs "error" (errorLine "session_id required") = true
      ∧ frameTypeIs "end" endLine = true :=
  C6_failing_validation (fun _ => Option.none) c6State "session_id required"
    (by decide) (by rfl)

/-! ## Claim C8 -/

theorem dispatch_output_end (fs : Fs) (ist : PyDictL) (ds : PyVal) (snap : PyDictL) (os : PyVal) :
    format_dispatch fs ist "output" (.str "on_chain_end") ds snap os
      = .ok (fmt_output "output" os ds) := rfl

theorem dispatch_output_node_end (fs : Fs) (ist : PyDictL) (ds : PyVal) (snap : PyDictL) (os : PyVal) :
    format_dispatch fs ist "output_node" (.str "on_chain_end") ds snap os
      = .ok (fmt_output "output_node" os ds) := rfl

/-- Helper: `fmt_output` emits exactly one `final` payload whose content follows the
content → response → raw-data precedence. -/
theorem fmt_output_content (nn : String) (os ds : PyVal) :
    fmt_output nn os ds = [PyVal.dict [("type", .str "final"), ("node", .str nn),
      ("content",
        match os with
        | .dict kvs =>
          if _extract_text (pyOr (lookupD kvs "content" .none) (.dict kvs)) ≠ "" then
            .str (_extract_text (pyOr (lookupD kvs "content" .none) (.dict kvs)))
          else if (lookupD kvs "response" (.str "")).truthy then
            lookupD kvs "response" (.str "")
          else .str (_extract_text ds)
        | _ => .str (_extract_text ds))]] := by
  cases os with
  | dict kvs =>
    unfold fmt_output
    dsimp only
    by_cases ha : _extract_text (pyOr (lookupD kvs "content" .none) (.dict kvs)) ≠ ""
    · have htr : (PyVal.str (_extract_text (pyOr (lookupD kvs "content" .none)
          (.dict kvs)))).truthy = true := by
        simp only [PyVal.truthy]
        cases he : (_extract_text (pyOr (lookupD kvs "content" PyVal.none)
            (PyVal.dict kvs))).isEmpty with
        | false => rfl
        | true => exact absurd ((String.isEmpty_iff _).mp he) ha
      simp only [if_pos ha, if_pos htr]
    · simp only [if_neg ha]
  | none =>
    unfold fmt_output
    dsimp only
    rw [if_neg (show ¬((PyVal.str "").truthy = true) by decide)]
  | bool b =>
    unfold fmt_output
    dsimp only
    rw [if_neg (show ¬((PyVal.str "").truthy = true) by decide)]
  | int n =>
    unfold fmt_output
    dsimp only
    rw [if_neg (show ¬((PyVal.str "").truthy = true) by decide)]
  | str s =>
    unfold fmt_output
    dsimp only
    rw [if_neg (show ¬((PyVal.str "").truthy = true) by decide)]
  | list xs =>
    unfold fmt_output
    dsimp only
    rw [if_neg (show ¬((PyVal.str "").truthy = true) by decide)]
  | obj r =>
    unfold fmt_output
    dsimp only
    rw [if_neg (show ¬((PyVal.str "").truthy = true) by decide)]

/-- C8: for every end event of the output node, the formatter emits exactly
one `final` payload; its content is the best-available text with precedence:
the extract of the nested `content` field (falling back to the whole output
dict) when nonempty, else the `response` field when truthy, else the extract
of the raw event data section. -/
theorem C8_output_final (fs : Fs) (ev ist : PyDictL) (nm : String)
    (hname : pyGet ev "name" = .str nm)
    (hlow : lowerStr nm = "output" ∨ lowerStr nm = "output_node")
    (hev : pyGet ev "event" = .str "on_chain_end") :
    format_event_for_ui fs ev ist
      = .ok [PyVal.dict [("type", .str "final"), ("node", .str (lowerStr nm)),
        ("content",
          match (match pyOr (pyGet ev "data") (.dict []) with
                 | .dict kvs => lookupD kvs "output" .none
                 | _ => PyVal.none) with
          | .dict kvs =>
            if _extract_text (pyOr (lookupD kvs "content" .none) (.dict kvs)) ≠ "" then
              .str (_extract_text (pyOr (lookupD kvs "content" .none) (.dict kvs)))
            else if (lookupD kvs "response" (.str "")).truthy then
              lookupD kvs "response" (.str "")
            else .str (_extract_text (pyOr (pyGet ev "data") (.dict [])))
          | _ => .str (_extract_text (pyOr (pyGet ev "data") (.dict []))))]] := by
  have hne : nm ≠ "" := by
    intro h0
    subst h0
    rcases hlow with h | h <;> exact absurd h (by decide)
  have hlower : pyOr (pyGet ev "name") (.str "") = .str nm := by
    rw [hname]
    unfold pyOr
    rw [if_pos (show (PyVal.str nm).truthy = true by
      simp only [PyVal.truthy]
      cases he : nm.isEmpty with
      | false => rfl
      | true => exact absurd ((String.isEmpty_iff _).mp he) hne)]
  unfold format_event_for_ui format_body
  rw [hlower]
  simp only [pyLower, hev]
  rcases hlow with hl | hl <;> rw [hl]
  · rw [dispatch_output_end]
    simp only [fmt_output_content]
  · rw [dispatch_output_node_end]
    simp only [fmt_output_content]

/-- Witness for C8 at a concrete output end event. -/
theorem C8_output_final_witness :
    format_event_for_ui (fun _ => Option.none)
      [("name", .str "output"), ("event", .str "on_chain_end"),
       ("data", .dict [("output", .dict [("content", .str "All done"),
                                         ("response", .str "r")])])] []
      = .ok [PyVal.dict [("type", .str "final"), ("node", .str (lowerStr "output")),
        ("content",
          match (match pyOr (pyGet [("name", PyVal.str "output"), ("event", PyVal.str "on_chain_end"),
                   ("data", PyVal.dict [("output", PyVal.dict [("content", PyVal.str "All done"),
                                        ("response", PyVal.str "r")])])] "data") (.dict []) with
                 | .dict kvs => lookupD kvs "output" .none
                 | _ => PyVal.none) with
          | .dict kvs =>
            if _extract_text (pyOr (lookupD kvs "content" .none) (.dict kvs)) ≠ "" then
              .str (_extract_text (pyOr (lookupD kvs "content" .none) (.dict kvs)))
            else if (lookupD kvs "response" (.str "")).truthy then
              lookupD kvs "response" (.str "")
            else .str (_extract_text (pyOr (pyGet [("name", PyVal.str "output"),
                ("event", PyVal.str "on_chain_end"),
                ("data", PyVal.dict [("output", PyVal.dict [("content", PyVal.str "All done"),
                                     ("response", PyVal.str "r")])])] "data") (.dict [])))
          | _ => .str "x")]] :=
  C8_output_final (fun _ => Option.none)
    [("name", .str "output"), ("event", .str "on_chain_end"),
     ("data", .dict [("output", .dict [("content", .str "All done"), ("response", .str "r")])])]
    [] "output" rfl (Or.inl rfl) rfl

/-! ## Claim C9 -/

/-- C9: when JSON serialization of a payload raises, `serialize_payload_for_sse`
returns (never propagates) the fallback frame whose payload maps `type` to
`event` and `raw` to the payload's string form truncated to 200 characters (with
newlines escaped), itself always serializable. -/
theorem C9_serialize_fallback (p : PyVal) (m : String)
    (h : jsonDumps p = .error m) :
    ∃ j, jsonDumps (.dict [("type", .str "event"),
          ("raw", .str (replaceCharStr '\n' "\\n" (takeStr (pyStr p) 200)))]) = .ok j
      ∧ serialize_payload_for_sse p = "data: " ++ j ++ "\n\n"
      ∧ frameTypeIs "event" ("data: " ++ j ++ "\n\n") = true := by
  refine ⟨_, jsonDumps_two_str_ok "type" "raw" "event" _, ?_, ?_⟩
  · unfold serialize_payload_for_sse
    rw [h]
    simp only [jsonDumps_two_str_ok]
  · apply frameTypeIs_of_data
      ((", \"raw\": " : String).data
        ++ ((jsonQuote (replaceCharStr '\n' "\\n" (takeStr (pyStr p) 200))).data
            ++ ("\x7d\n\n" : String).data))
    simp only [data_append, List.append_assoc]
    rfl

/-- Witness for C9 at a payload containing a non-serializable object. -/
theorem C9_serialize_fallback_witness :
    ∃ j, jsonDumps (.dict [("type", .str "event"),
          ("raw", .str (replaceCharStr '\n' "\\n"
            (takeStr (pyStr (.dict [("x", .obj "<object>")])) 200)))]) = .ok j
      ∧ serialize_payload_for_sse (.dict [("x", .obj "<object>")]) = "data: " ++ j ++ "\n\n"
      ∧ frameTypeIs "event" ("data: " ++ j ++ "\n\n") = true :=
  C9_serialize_fallback (.dict [("x", .obj "<object>")])
    "Object <object> is not JSON serializable" rfl

/-! ## Claim C10 -/

/-- C10: in the first routing decision, an existing temp table takes
precedence over a supplied `document_url` (the route is `has_doc`, whose
conditional edge leads straight to `policy_retriever`); and if the existence
check raises, the router treats the store as absent instead of failing: it
routes on `document_url` alone. -/
theorem C10_route_precedence (st : PyDictL) (db db2 : Db) (m : String)
    (hsafe : (pyGet st "safe_session_id").truthy = true)
    (hdb : db (temp_table_name (pyGet st "safe_session_id")) = .ok true)
    (hdb2 : db2 (temp_table_name (pyGet st "safe_session_id")) = .error m) :
    route_after_history db st = "has_doc"
    ∧ lookupEdge route_after_history_map "has_doc" = some "policy_retriever"
    ∧ route_after_history db2 st
        = (if (pyGet st "document_url").truthy then "with_doc" else "no_doc") := by
  have hct : check_temp_table db st = true := by
    simp [check_temp_table, hsafe, hdb]
  have hcf : check_temp_table db2 st = false := by
    simp [check_temp_table, hsafe, hdb2]
  refine ⟨?_, rfl, ?_⟩
  · simp [route_after_history, hct]
  · simp [route_after_history, hcf]

/-- Witness for C10: a state with both a temp table and a document URL. -/
theorem C10_route_precedence_witness :
    route_after_history (fun _ => .ok true)
        [("safe_session_id", .str "s1"), ("document_url", .str "http://x")] = "has_doc"
    ∧ lookupEdge route_after_history_map "has_doc" = some "policy_retriever"
    ∧ route_after_history (fun _ => .error "db down")
        [("safe_session_id", .str "s1"), ("document_url", .str "http://x")]
        = (if (pyGet [("safe_session_id", PyVal.str "s1"),
              ("document_url", PyVal.str "http://x")] "document_url").truthy
           then "with_doc" else "no_doc") :=
  C10_route_precedence [("safe_session_id", .str "s1"), ("document_url", .str "http://x")]
    (fun _ => .ok true) (fun _ => .error "db down") "db down" (by decide) rfl rfl

/-! ## Claim C7 -/

theorem lookupOpt_setKV_ne (st : PyDictL) (k k' : String) (v : PyVal) (h : k' ≠ k) :
    lookupOpt (setKV st k v) k' = lookupOpt st k' := by
  induction st with
  | nil => simp [setKV, lookupOpt, Ne.symm h]
  | cons kv rest ih =>
    obtain ⟨k0, v0⟩ := kv
    by_cases h0 : k0 = k
    · subst h0
      simp [setKV, lookupOpt, h, Ne.symm h]
    · simp only [setKV, if_neg h0, lookupOpt]
      by_cases h1 : k0 = k'
      · simp [h1]
      · simp [h1, ih]

theorem pyGet_setKV_ne (st : PyDictL) (k k' : String) (v : PyVal) (h : k' ≠ k) :
    pyGet (setKV st k v) k' = pyGet st k' := by
  unfold pyGet lookupD
  rw [lookupOpt_setKV_ne st k k' v h]

/-- Helper: `runSegTail` never executes the document nodes. -/
theorem runSegTail_no_doc_nodes (env : NodeEnv) (st : PyDictL) :
    "doc_download" ∉ (runSegTail env st).1 ∧ "doc_process" ∉ (runSegTail env st).1 := by
  unfold runSegTail
  cases context_combination_node st with
  | error e => exact ⟨by simp, by simp⟩
  | ok u =>
    dsimp only
    cases llm_node env (mergeState st u) with
    | error e => exact ⟨by simp, by simp⟩
    | ok u2 =>
      dsimp only
      cases session_update_node (mergeState (mergeState st u) u2) with
      | error e => exact ⟨by simp, by simp⟩
      | ok u3 =>
        dsimp only
        cases output_node env (mergeState (mergeState (mergeState st u) u2) u3) with
        | error e => exact ⟨by simp, by simp⟩
        | ok u4 => exact ⟨by simp, by simp⟩

/-- Helper: `runFromPolicy` never executes the document download/processing nodes. -/
theorem runFromPolicy_no_doc_nodes (env : NodeEnv) (db : Db) (st : PyDictL) :
    "doc_download" ∉ (runFromPolicy env db st).1
    ∧ "doc_process" ∉ (runFromPolicy env db st).1 := by
  unfold runFromPolicy
  cases policy_retriever_node env st with
  | error e => exact ⟨by simp, by simp⟩
  | ok u =>
    dsimp only
    cases hc : check_temp_table db (mergeState st u) with
    | true =>
      rw [show route_after_policy db (mergeState st u) = "need_doc" from by
        simp [route_after_policy, hc]]
      simp only [show lookupEdge route_after_policy_map "need_doc"
          = some "doc_retriever" from rfl]
      cases document_retriever_node env (mergeState st u) with
      | error e => exact ⟨by simp, by simp⟩
      | ok u2 =>
        constructor
        · simp only [List.mem_cons, not_or]
          exact ⟨by simp, by simp, (runSegTail_no_doc_nodes _ _).1⟩
        · simp only [List.mem_cons, not_or]
          exact ⟨by simp, by simp, (runSegTail_no_doc_nodes _ _).2⟩
    | false =>
      rw [show route_after_policy db (mergeState st u) = "no_doc_needed" from by
        simp [route_after_policy, hc]]
      simp only [show lookupEdge route_after_policy_map "no_doc_needed"
          = some "context_combine" from rfl]
      constructor
      · simp only [List.mem_cons, not_or]
        exact ⟨by simp, (runSegTail_no_doc_nodes _ _).1⟩
      · simp only [List.mem_cons, not_or]
        exact ⟨by simp, (runSegTail_no_doc_nodes _ _).2⟩

/-- The update an `input_node` success returns is exactly the safe session id. -/
theorem input_node_update {st : PyDictL} {u : NodeUpdate} (h : input_node st = .ok u) :
    ∃ s, u = [("safe_session_id", PyVal.str s)] := by
  unfold input_node at h
  split at h
  · exact absurd h (by simp)
  split at h
  · exact absurd h (by simp)
  split at h
  · exact absurd h (by simp)
  split at h
  · simp only [Except.ok.injEq] at h
    exact ⟨_, h.symm⟩
  · exact absurd h (by simp)

/-- C7: for every spec-modelled execution of the company-policy graph from a
state with no document URL, when the temp-table oracle reports no temporary
store anywhere, the nodes `doc_download` and `doc_process` are never executed;
and on every such state the first router answers `no_doc` (routing straight to
`policy_retriever` per the conditional-edge map). -/
theorem C7_no_doc_path (env : NodeEnv) (db : Db) (st : PyDictL)
    (hurl : (pyGet st "document_url").truthy = false)
    (hdb : ∀ tbl, db tbl = .ok false) :
    "doc_download" ∉ (runCompanyPolicy env db st).1
    ∧ "doc_process" ∉ (runCompanyPolicy env db st).1
    ∧ (∀ st', (pyGet st' "document_url").truthy = false →
        route_after_history db st' = "no_doc"
        ∧ lookupEdge route_after_history_map "no_doc" = some "policy_retriever") := by
  have hcf : ∀ st0, check_temp_table db st0 = false := by
    intro st0
    unfold check_temp_table
    dsimp only
    rw [hdb]
    simp
  have hroute : ∀ st', (pyGet st' "document_url").truthy = false →
      route_after_history db st' = "no_doc" := by
    intro st' hu
    simp [route_after_history, hcf st', hu]
  refine ⟨?_, ?_, fun st' hu => ⟨hroute st' hu, rfl⟩⟩ <;>
  · unfold runCompanyPolicy
    cases hin : input_node st with
    | error e => simp
    | ok u =>
      obtain ⟨s0, rfl⟩ := input_node_update hin
      dsimp only [session_history_node]
      have hu2 : (pyGet (mergeState (mergeState st [("safe_session_id", PyVal.str s0)])
          [("history", env.history)]) "document_url").truthy = false := by
        have e1 : mergeState st [("safe_session_id", PyVal.str s0)]
            = setKV st "safe_session_id" (PyVal.str s0) := rfl
        have e2 : ∀ x : PyDictL, mergeState x [("history", env.history)]
            = setKV x "history" env.history := fun _ => rfl
        rw [e1, e2, pyGet_setKV_ne _ _ _ _ (by decide), pyGet_setKV_ne _ _ _ _ (by decide)]
        exact hurl
      rw [hroute _ hu2]
      simp only [show lookupEdge route_after_history_map "no_doc"
          = some "policy_retriever" from rfl]
      simp only [List.mem_cons, not_or]
      refine ⟨by simp, by simp, ?_⟩
      first
      | exact (runFromPolicy_no_doc_nodes _ _ _).1
      | exact (runFromPolicy_no_doc_nodes _ _ _).2





/-- Witness for C7 at a concrete valid state with no document. -/
theorem C7_no_doc_path_witness :
    "doc_download" ∉ (runCompanyPolicy env0 (fun _ => .ok false) c7State).1
    ∧ "doc_process" ∉ (runCompanyPolicy env0 (fun _ => .ok false) c7State).1
    ∧ (∀ st', (pyGet st' "document_url").truthy = false →
        route_after_history (fun _ => .ok false) st' = "no_doc"
        ∧ lookupEdge route_after_history_map "no_doc" = some "policy_retriever") :=
  C7_no_doc_path env0 (fun _ => .ok false) c7State (by decide) (fun _ => rfl)

/-- Witness for C1 at a concrete empty-event stream that raises. -/
theorem C1_producer_terminal_frames_witness :
    ∃ pre : List String,
      async_producer (fun _ => Option.none) [] [] (some "boom")
        = pre.map some ++ [some endLine, Option.none]
      ∧ (∀ l ∈ pre, l ≠ endLine)
      ∧ (∀ m, producer_error (fun _ => Option.none) [] [] (some "boom") = some m →
          ∃ pre0, pre = pre0 ++ [errorLine m])
      ∧ (producer_error (fun _ => Option.none) [] [] (some "boom") = Option.none →
          pre = (producer_loop (fun _ => Option.none) [] []).1) :=
  C1_producer_terminal_frames (fun _ => Option.none) [] [] (some "boom")
